import Mathlib

/-!
Verification development for the roomeet roommate-matching application.

The definitions below are a shallow embedding of the TypeScript sources:
* `client/src/components/match-compatibility.tsx` (the `MatchCompatibility`
  component's category calculators and overall percentage),
* `client/src/pages/matches-page.tsx` (`calculateMatchPercentage`),
* `server/storage.ts` (`MemStorage`: profiles, conversations, messages),
* `server/routes.ts` (the `POST /api/messages` handler).

Conventions used throughout:
* nullable database columns become `Option` fields;
* insert payload fields that can be absent (`undefined`) or explicitly
  `null` become `Option (Option _)` (outer `none` = absent);
* JavaScript truthiness of a nullable string (`null`, `undefined` and `""`
  are falsy) is the function `tv`;
* `s.toLowerCase()` is modelled as `jsLower s : List Char` and
  `a.toLowerCase() === b.toLowerCase()` as `lcEq a b`;
* JavaScript number arithmetic on the scorer's values is exact in ℚ
  (all quantities involved are small rationals, far below any
  floating-point rounding threshold), and `Math.round` is `jsRound`;
* `new Date()` timestamps are draws from a nondecreasing clock carried
  in the store state (`MemStorage.now`): each draw advances the clock by
  a nondeterministic, possibly zero, amount (the source's clock has
  millisecond resolution, so consecutive calls may observe the same
  instant).
-/

namespace Roomeet

/-! ## Data model (shared/schema.ts) -/

/-- Row of the `user_profiles` table (`shared/schema.ts`).  All columns
except the ids are nullable.  The display-irrelevant `Property` table is
out of scope. -/
structure UserProfile where
  id : Nat
  userId : Nat
  fullName : Option String
  age : Option Int
  occupation : Option String
  location : Option String
  idealLocation : Option String
  budget : Option Int
  hobbies : Option (List String)
  interests : Option (List String)
  lifestyle : Option String
  cleanliness : Option String
  smokingPreference : Option String
  petPreference : Option String
  roommateQualities : Option (List String)
  additionalInfo : Option String
  profileComplete : Bool
deriving Repr, DecidableEq

/-- JavaScript truthiness of a nullable string: `null`/`undefined` and the
empty string are falsy. -/
def tv : Option String → Bool
  | none => false
  | some s => s != ""

/-- Models `s.toLowerCase()` over the characters of `s`. -/
def jsLower (s : String) : List Char := s.toList.map Char.toLower

/-- Models `a.toLowerCase() === b.toLowerCase()`. -/
def lcEq (a b : String) : Bool := jsLower a == jsLower b

/-- Models `hay.includes(pat)` on character lists: contiguous substring test. -/
def containsSeq : List Char → List Char → Bool
  | [], pat => pat.isEmpty
  | c :: t, pat => pat.isPrefixOf (c :: t) || containsSeq t pat

/-- Models `Math.round` for the nonnegative values produced by the scorers
(JavaScript rounds half up). -/
def jsRound (q : ℚ) : ℤ := ⌊q + 1/2⌋

/-! ## Match scorer (client/src/components/match-compatibility.tsx)

Each category calculator returns a score and a maximum score; the
display-only `category` and `tooltip` strings are omitted. -/

structure MatchCategoryScore where
  score : ℚ
  maxScore : ℚ
deriving Repr

def calculateLifestyleMatch (userProfile otherProfile : UserProfile) : MatchCategoryScore :=
  { score := if tv userProfile.lifestyle && tv otherProfile.lifestyle &&
        (userProfile.lifestyle == otherProfile.lifestyle) then 20 else 0,
    maxScore := if tv userProfile.lifestyle && tv otherProfile.lifestyle then 20 else 0 }

def calculateCleanlinessMatch (userProfile otherProfile : UserProfile) : MatchCategoryScore :=
  { score := if tv userProfile.cleanliness && tv otherProfile.cleanliness &&
        (userProfile.cleanliness == otherProfile.cleanliness) then 15 else 0,
    maxScore := if tv userProfile.cleanliness && tv otherProfile.cleanliness then 15 else 0 }

def calculateSmokingMatch (userProfile otherProfile : UserProfile) : MatchCategoryScore :=
  { score := if tv userProfile.smokingPreference && tv otherProfile.smokingPreference &&
        (userProfile.smokingPreference == otherProfile.smokingPreference) then 15 else 0,
    maxScore := if tv userProfile.smokingPreference && tv otherProfile.smokingPreference then 15 else 0 }

def calculatePetMatch (userProfile otherProfile : UserProfile) : MatchCategoryScore :=
  { score := if tv userProfile.petPreference && tv otherProfile.petPreference &&
        (userProfile.petPreference == otherProfile.petPreference) then 10 else 0,
    maxScore := if tv userProfile.petPreference && tv otherProfile.petPreference then 10 else 0 }

def calculateHobbyMatch (userProfile otherProfile : UserProfile) : MatchCategoryScore :=
  match userProfile.hobbies, otherProfile.hobbies with
  | some userHobbies, some otherHobbies =>
    if userHobbies.length == 0 || otherHobbies.length == 0 then ⟨0, 0⟩
    else
      let commonHobbies := userHobbies.filter (fun hobby =>
        otherHobbies.any (fun otherHobby => lcEq otherHobby hobby))
      ⟨((commonHobbies.length : ℚ) / (max userHobbies.length 1 : ℚ)) * 20, 20⟩
  | _, _ => ⟨0, 0⟩

def calculateInterestMatch (userProfile otherProfile : UserProfile) : MatchCategoryScore :=
  match userProfile.interests, otherProfile.interests with
  | some userInterests, some otherInterests =>
    if userInterests.length == 0 || otherInterests.length == 0 then ⟨0, 0⟩
    else
      let commonInterests := userInterests.filter (fun interest =>
        otherInterests.any (fun otherInterest => lcEq otherInterest interest))
      ⟨((commonInterests.length : ℚ) / (max userInterests.length 1 : ℚ)) * 20, 20⟩
  | _, _ => ⟨0, 0⟩

def calculateRoommateQualityMatch (userProfile otherProfile : UserProfile) : MatchCategoryScore :=
  match userProfile.roommateQualities with
  | none => ⟨0, 0⟩
  | some desiredQualities =>
    if desiredQualities.length == 0 then ⟨0, 0⟩
    else
      let additionalInfo := (otherProfile.additionalInfo.map jsLower).getD []
      let matchedQualities :=
        desiredQualities.countP (fun quality => containsSeq additionalInfo (jsLower quality))
      ⟨min 10 (((matchedQualities : ℚ) / (desiredQualities.length : ℚ)) * 10), 10⟩

def calculateLocationMatch (userProfile otherProfile : UserProfile) : MatchCategoryScore :=
  match userProfile.location, otherProfile.location with
  | some uloc, some oloc =>
    if uloc == "" || oloc == "" then ⟨0, 0⟩
    else
      let currentLocationMatch := lcEq uloc oloc
      let idealLocationMatch :=
        match userProfile.idealLocation with
        | some il => il != "" && lcEq il oloc
        | none => false
      let reverseIdealLocationMatch :=
        match otherProfile.idealLocation with
        | some oil => oil != "" && lcEq uloc oil
        | none => false
      let score : ℚ :=
        if currentLocationMatch then 15
        else if idealLocationMatch then 10
        else if reverseIdealLocationMatch then 10
        else 0
      ⟨score, 15⟩
  | _, _ => ⟨0, 0⟩

/-- The eight categories, keeping only those with data
(`.filter(category => category.maxScore > 0)`). -/
def categories (userProfile otherProfile : UserProfile) : List MatchCategoryScore :=
  [calculateLifestyleMatch userProfile otherProfile,
   calculateCleanlinessMatch userProfile otherProfile,
   calculateSmokingMatch userProfile otherProfile,
   calculatePetMatch userProfile otherProfile,
   calculateHobbyMatch userProfile otherProfile,
   calculateInterestMatch userProfile otherProfile,
   calculateRoommateQualityMatch userProfile otherProfile,
   calculateLocationMatch userProfile otherProfile].filter
    (fun category => decide (0 < category.maxScore))

def totalScore (userProfile otherProfile : UserProfile) : ℚ :=
  (categories userProfile otherProfile).foldl (fun sum category => sum + category.score) 0

def totalMaxScore (userProfile otherProfile : UserProfile) : ℚ :=
  (categories userProfile otherProfile).foldl (fun sum category => sum + category.maxScore) 0

/-- The `MatchCompatibility` component's overall match percentage. -/
def overallPercentage (userProfile otherProfile : UserProfile) : ℤ :=
  if 0 < totalMaxScore userProfile otherProfile then
    jsRound (totalScore userProfile otherProfile / totalMaxScore userProfile otherProfile * 100)
  else 0

/-! ## Matches-page scorer (client/src/pages/matches-page.tsx)

`calculateMatchPercentage` accumulates `points` and `maxPoints` across six
blocks; each block is rendered as a pair of guarded summands (`mp...Points`
is what the block adds to `points`, `mp...Max` what it adds to
`maxPoints`). -/

def mpLifestylePoints (userProfile otherProfile : UserProfile) : ℚ :=
  if tv userProfile.lifestyle && tv otherProfile.lifestyle then
    (if userProfile.lifestyle == otherProfile.lifestyle then 20 else 0)
  else 0

def mpLifestyleMax (userProfile otherProfile : UserProfile) : ℚ :=
  if tv userProfile.lifestyle && tv otherProfile.lifestyle then 20 else 0

def mpCleanlinessPoints (userProfile otherProfile : UserProfile) : ℚ :=
  if tv userProfile.cleanliness && tv otherProfile.cleanliness then
    (if userProfile.cleanliness == otherProfile.cleanliness then 15 else 0)
  else 0

def mpCleanlinessMax (userProfile otherProfile : UserProfile) : ℚ :=
  if tv userProfile.cleanliness && tv otherProfile.cleanliness then 15 else 0

def mpSmokingPoints (userProfile otherProfile : UserProfile) : ℚ :=
  if tv userProfile.smokingPreference && tv otherProfile.smokingPreference then
    (if userProfile.smokingPreference == otherProfile.smokingPreference then 15 else 0)
  else 0

def mpSmokingMax (userProfile otherProfile : UserProfile) : ℚ :=
  if tv userProfile.smokingPreference && tv otherProfile.smokingPreference then 15 else 0

def mpPetPoints (userProfile otherProfile : UserProfile) : ℚ :=
  if tv userProfile.petPreference && tv otherProfile.petPreference then
    (if userProfile.petPreference == otherProfile.petPreference then 10 else 0)
  else 0

def mpPetMax (userProfile otherProfile : UserProfile) : ℚ :=
  if tv userProfile.petPreference && tv otherProfile.petPreference then 10 else 0

/-- Hobby block: guarded only by `userProfile.hobbies && otherProfile.hobbies`
(a non-null array is truthy in JavaScript even when empty). -/
def mpHobbyPoints (userProfile otherProfile : UserProfile) : ℚ :=
  match userProfile.hobbies, otherProfile.hobbies with
  | some userHobbies, some otherHobbies =>
    let commonHobbies := userHobbies.filter (fun hobby =>
      otherHobbies.any (fun otherHobby => lcEq otherHobby hobby))
    ((commonHobbies.length : ℚ) / (max userHobbies.length 1 : ℚ)) * 20
  | _, _ => 0

def mpHobbyMax (userProfile otherProfile : UserProfile) : ℚ :=
  match userProfile.hobbies, otherProfile.hobbies with
  | some _, some _ => 20
  | _, _ => 0

def mpInterestPoints (userProfile otherProfile : UserProfile) : ℚ :=
  match userProfile.interests, otherProfile.interests with
  | some userInterests, some otherInterests =>
    let commonInterests := userInterests.filter (fun interest =>
      otherInterests.any (fun otherInterest => lcEq otherInterest interest))
    ((commonInterests.length : ℚ) / (max userInterests.length 1 : ℚ)) * 20
  | _, _ => 0

def mpInterestMax (userProfile otherProfile : UserProfile) : ℚ :=
  match userProfile.interests, otherProfile.interests with
  | some _, some _ => 20
  | _, _ => 0

/-- The function `calculateMatchPercentage` from the matches page (`null` current profile
returns 0; final `maxPoints = Math.max(maxPoints, 1)` avoids dividing by
zero). -/
def calculateMatchPercentage (userProfileOpt : Option UserProfile)
    (otherProfile : UserProfile) : ℤ :=
  match userProfileOpt with
  | none => 0
  | some userProfile =>
    let points : ℚ :=
      mpLifestylePoints userProfile otherProfile +
      mpCleanlinessPoints userProfile otherProfile +
      mpSmokingPoints userProfile otherProfile +
      mpPetPoints userProfile otherProfile +
      mpHobbyPoints userProfile otherProfile +
      mpInterestPoints userProfile otherProfile
    let maxPoints : ℚ :=
      mpLifestyleMax userProfile otherProfile +
      mpCleanlinessMax userProfile otherProfile +
      mpSmokingMax userProfile otherProfile +
      mpPetMax userProfile otherProfile +
      mpHobbyMax userProfile otherProfile +
      mpInterestMax userProfile otherProfile
    jsRound (points / max maxPoints 1 * 100)

/-! ## In-memory store (server/storage.ts, class MemStorage)

JavaScript `Map`s become association lists in insertion order (`Map.set`
replaces in place when the key exists, appends otherwise; `values()`
iterates in insertion order).  `new Date()` timestamps are draws from
the nondecreasing clock `now`, each draw advancing it by an arbitrary
`dt : Nat` supplied by the environment — `dt = 0` models a call in the
same millisecond (the clock starts at 1: epoch milliseconds are never 0,
so `createdAt || Date.now()` in the message sort comparator always reads
`createdAt`). -/

structure User where
  id : Nat
  username : String
  password : String
  avatarUrl : Option String
  bio : Option String
deriving Repr, DecidableEq

/-- Insert payload for `users` (`avatarUrl ?? null` and `bio ?? null`
collapse absent and null, so one `Option` level suffices). -/
structure InsertUser where
  username : String
  password : String
  avatarUrl : Option String
  bio : Option String
deriving Repr, DecidableEq

structure Message where
  id : Nat
  senderId : Nat
  receiverId : Nat
  content : String
  read : Bool
  createdAt : Nat
deriving Repr, DecidableEq

/-- Insert payload for `messages` (schema omits `id` and `createdAt`;
`read` may be absent, `message.read ?? false` applies the default). -/
structure InsertMessage where
  senderId : Nat
  receiverId : Nat
  content : String
  read : Option Bool
deriving Repr, DecidableEq

structure Conversation where
  id : Nat
  user1Id : Nat
  user2Id : Nat
  lastMessageAt : Nat
  unreadCount : Nat
deriving Repr, DecidableEq

/-- Insert payload for `user_profiles` (schema omits `id`, `userId`,
`profileComplete`).  Every field may be absent (`undefined`, outer `none`)
or explicitly `null` (inner `none`) — the distinction matters because
`createUserProfile` tests `insertProfile.fullName !== null`. -/
structure InsertUserProfile where
  fullName : Option (Option String)
  age : Option (Option Int)
  occupation : Option (Option String)
  location : Option (Option String)
  idealLocation : Option (Option String)
  budget : Option (Option Int)
  hobbies : Option (Option (List String))
  interests : Option (Option (List String))
  lifestyle : Option (Option String)
  cleanliness : Option (Option String)
  smokingPreference : Option (Option String)
  petPreference : Option (Option String)
  roommateQualities : Option (Option (List String))
  additionalInfo : Option (Option String)
deriving Repr, DecidableEq

/-- JavaScript truthiness of a possibly-absent nullable string. -/
def tvOO : Option (Option String) → Bool
  | some (some s) => s != ""
  | _ => false

/-- Models the spread `...existing, ...updateData` for one field: an absent update key
keeps the existing value, a present one (including explicit null)
overrides. -/
def spreadField (upd : Option (Option α)) (old : Option α) : Option α :=
  match upd with
  | some v => v
  | none => old

def mapGet (l : List (Nat × α)) (k : Nat) : Option α :=
  (l.find? (fun e => e.1 == k)).map (·.2)

def mapSet (l : List (Nat × α)) (k : Nat) (v : α) : List (Nat × α) :=
  if l.any (fun e => e.1 == k) then
    l.map (fun e => if e.1 == k then (k, v) else e)
  else l ++ [(k, v)]

def mapValues (l : List (Nat × α)) : List α := l.map (·.2)

structure MemStorage where
  users : List (Nat × User)
  userProfiles : List (Nat × UserProfile)
  userIdToProfileIdMap : List (Nat × Nat)
  messages : List (Nat × Message)
  conversations : List (Nat × Conversation)
  currentUserId : Nat
  currentProfileId : Nat
  currentMessageId : Nat
  currentConversationId : Nat
  now : Nat

def initStorage : MemStorage :=
  { users := [], userProfiles := [], userIdToProfileIdMap := [], messages := [],
    conversations := [], currentUserId := 1, currentProfileId := 1,
    currentMessageId := 1, currentConversationId := 1, now := 1 }

/-- One `new Date()` call: the clock advances by an arbitrary
nonnegative amount `dt` (0 models a call within the same millisecond)
and the observed instant is returned. -/
def tick (s : MemStorage) (dt : Nat) : Nat × MemStorage :=
  (s.now + dt, { s with now := s.now + dt })

def getUser (s : MemStorage) (id : Nat) : Option User := mapGet s.users id

def createUser (s : MemStorage) (insertUser : InsertUser) : User × MemStorage :=
  let id := s.currentUserId
  let user : User :=
    { id, username := insertUser.username, password := insertUser.password,
      avatarUrl := insertUser.avatarUrl, bio := insertUser.bio }
  (user, { s with users := mapSet s.users id user, currentUserId := id + 1 })

def createUserProfile (s : MemStorage) (userId : Nat)
    (insertProfile : InsertUserProfile) : UserProfile × MemStorage :=
  let id := s.currentProfileId
  let hobbies : List String := insertProfile.hobbies.join.getD []
  let interests : List String := insertProfile.interests.join.getD []
  let roommateQualities : List String := insertProfile.roommateQualities.join.getD []
  let profile : UserProfile :=
    { id, userId,
      fullName := insertProfile.fullName.join,
      age := insertProfile.age.join,
      occupation := insertProfile.occupation.join,
      location := insertProfile.location.join,
      idealLocation := insertProfile.idealLocation.join,
      budget := insertProfile.budget.join,
      hobbies := some hobbies,
      interests := some interests,
      lifestyle := insertProfile.lifestyle.join,
      cleanliness := insertProfile.cleanliness.join,
      smokingPreference := insertProfile.smokingPreference.join,
      petPreference := insertProfile.petPreference.join,
      roommateQualities := some roommateQualities,
      additionalInfo := insertProfile.additionalInfo.join,
      profileComplete := (insertProfile.fullName != some none) &&
        decide (0 < interests.length) && decide (0 < hobbies.length) }
  (profile,
   { s with
     userProfiles := mapSet s.userProfiles id profile
     userIdToProfileIdMap := mapSet s.userIdToProfileIdMap userId id
     currentProfileId := id + 1 })

def updateUserProfile (s : MemStorage) (userId : Nat)
    (updateData : InsertUserProfile) : UserProfile × MemStorage :=
  match mapGet s.userIdToProfileIdMap userId with
  | none => createUserProfile s userId updateData
  | some profileId =>
    match mapGet s.userProfiles profileId with
    | none => createUserProfile s userId updateData
    | some existingProfile =>
      let hobbies : List String :=
        match updateData.hobbies with
        | some v => v.getD []
        | none => existingProfile.hobbies.getD []
      let interests : List String :=
        match updateData.interests with
        | some v => v.getD []
        | none => existingProfile.interests.getD []
      let roommateQualities : List String :=
        match updateData.roommateQualities with
        | some v => v.getD []
        | none => existingProfile.roommateQualities.getD []
      let updatedProfile : UserProfile :=
        { id := existingProfile.id,
          userId := existingProfile.userId,
          fullName := spreadField updateData.fullName existingProfile.fullName,
          age := spreadField updateData.age existingProfile.age,
          occupation := spreadField updateData.occupation existingProfile.occupation,
          location := spreadField updateData.location existingProfile.location,
          idealLocation := spreadField updateData.idealLocation existingProfile.idealLocation,
          budget := spreadField updateData.budget existingProfile.budget,
          hobbies := some hobbies,
          interests := some interests,
          lifestyle := spreadField updateData.lifestyle existingProfile.lifestyle,
          cleanliness := spreadField updateData.cleanliness existingProfile.cleanliness,
          smokingPreference :=
            spreadField updateData.smokingPreference existingProfile.smokingPreference,
          petPreference := spreadField updateData.petPreference existingProfile.petPreference,
          roommateQualities := some roommateQualities,
          additionalInfo := spreadField updateData.additionalInfo existingProfile.additionalInfo,
          profileComplete := (tvOO updateData.fullName || tv existingProfile.fullName) &&
            decide (0 < interests.length) && decide (0 < hobbies.length) }
      (updatedProfile,
       { s with userProfiles := mapSet s.userProfiles profileId updatedProfile })

/-- The `[smallerId, largerId]` normalization used by `getConversation` and
`createOrUpdateConversation`. -/
def normPair (user1Id user2Id : Nat) : Nat × Nat :=
  if user1Id < user2Id then (user1Id, user2Id) else (user2Id, user1Id)

def getConversation (s : MemStorage) (user1Id user2Id : Nat) : Option Conversation :=
  let p := normPair user1Id user2Id
  (s.conversations.find? (fun e => e.2.user1Id == p.1 && e.2.user2Id == p.2)).map (·.2)

def getConversationById (s : MemStorage) (id : Nat) : Option Conversation :=
  mapGet s.conversations id

def createOrUpdateConversation (s : MemStorage) (user1Id user2Id : Nat) (dt : Nat) :
    Conversation × MemStorage :=
  let p := normPair user1Id user2Id
  match getConversation s p.1 p.2 with
  | some existingConversation =>
    let ts := tick s dt
    let updatedConversation := { existingConversation with lastMessageAt := ts.1 }
    (updatedConversation,
     { ts.2 with
       conversations := mapSet ts.2.conversations existingConversation.id updatedConversation })
  | none =>
    let id := s.currentConversationId
    let ts := tick { s with currentConversationId := id + 1 } dt
    let newConversation : Conversation :=
      { id, user1Id := p.1, user2Id := p.2, lastMessageAt := ts.1, unreadCount := 0 }
    (newConversation,
     { ts.2 with conversations := mapSet ts.2.conversations id newConversation })

/-- Message belongs to the conversation: its sender/receiver pair matches
the conversation's user pair in either direction. -/
def msgInConv (message : Message) (conversation : Conversation) : Bool :=
  (message.senderId == conversation.user1Id && message.receiverId == conversation.user2Id) ||
  (message.senderId == conversation.user2Id && message.receiverId == conversation.user1Id)

/-- Stable insertion by `createdAt` (models one step of the stable
`Array.prototype.sort` with comparator `a.createdAt - b.createdAt`). -/
def insertByTime (m : Message) : List Message → List Message
  | [] => [m]
  | x :: xs => if m.createdAt ≤ x.createdAt then m :: x :: xs else x :: insertByTime m xs

/-- Stable sort by `createdAt` ascending. -/
def sortByTime : List Message → List Message
  | [] => []
  | x :: xs => insertByTime x (sortByTime xs)

def getMessages (s : MemStorage) (conversationId : Nat) : List Message :=
  match getConversationById s conversationId with
  | none => []
  | some conversation =>
    sortByTime ((mapValues s.messages).filter (fun message => msgInConv message conversation))

def sendMessage (s : MemStorage) (message : InsertMessage) (dt1 dt2 : Nat) :
    Message × MemStorage :=
  let cs := createOrUpdateConversation s message.senderId message.receiverId dt1
  let conversation := cs.1
  let id := cs.2.currentMessageId
  let ts := tick { cs.2 with currentMessageId := id + 1 } dt2
  let newMessage : Message :=
    { id, senderId := message.senderId, receiverId := message.receiverId,
      content := message.content, read := message.read.getD false, createdAt := ts.1 }
  let updatedConversation :=
    { conversation with
      lastMessageAt := newMessage.createdAt
      unreadCount := conversation.unreadCount + 1 }
  (newMessage,
   { ts.2 with
     messages := mapSet ts.2.messages id newMessage
     conversations := mapSet ts.2.conversations conversation.id updatedConversation })

def markMessagesAsRead (s : MemStorage) (conversationId userId : Nat) : MemStorage :=
  match getConversationById s conversationId with
  | none => s
  | some conversation =>
    { s with
      messages := s.messages.map (fun e =>
        if e.2.receiverId == userId && msgInConv e.2 conversation && !e.2.read then
          (e.1, { e.2 with read := true })
        else e),
      conversations :=
        mapSet s.conversations conversationId { conversation with unreadCount := 0 } }

/-! ## POST /api/messages route handler (server/routes.ts)

Models the authenticated path with a schema-valid body: the handler merges
`senderId` from the session into the body, validates that the receiver
exists (404 "Recipient not found" otherwise, modelled as `none` with the
state untouched), then delegates to `storage.sendMessage`. -/

structure MessageBody where
  receiverId : Nat
  content : String
  read : Option Bool
deriving Repr, DecidableEq

def postMessagesRoute (s : MemStorage) (senderId : Nat) (body : MessageBody)
    (dt1 dt2 : Nat) : Option Message × MemStorage :=
  match getUser s body.receiverId with
  | none => (none, s)
  | some _ =>
    let ms := sendMessage s
      { senderId, receiverId := body.receiverId, content := body.content, read := body.read }
      dt1 dt2
    (some ms.1, ms.2)

/-- States reachable from the empty store by any sequence of mutating
store operations. -/
inductive Reachable : MemStorage → Prop
  | init : Reachable initStorage
  | user {s} (iu : InsertUser) : Reachable s → Reachable (createUser s iu).2
  | profileCreate {s} (uid : Nat) (ip : InsertUserProfile) :
      Reachable s → Reachable (createUserProfile s uid ip).2
  | profileUpdate {s} (uid : Nat) (u : InsertUserProfile) :
      Reachable s → Reachable (updateUserProfile s uid u).2
  | conv {s} (a b dt : Nat) : Reachable s → Reachable (createOrUpdateConversation s a b dt).2
  | send {s} (m : InsertMessage) (dt1 dt2 : Nat) :
      Reachable s → Reachable (sendMessage s m dt1 dt2).2
  | markRead {s} (cid uid : Nat) : Reachable s → Reachable (markMessagesAsRead s cid uid)

/-! ## Auxiliary predicates and concrete inputs used in the statements -/

/-- At least one of the eight scorer categories has data from both
profiles (each disjunct is the data-presence guard of one category of
`MatchCompatibility`). -/
def hasComparableData (userProfile otherProfile : UserProfile) : Bool :=
  (tv userProfile.lifestyle && tv otherProfile.lifestyle) ||
  (tv userProfile.cleanliness && tv otherProfile.cleanliness) ||
  (tv userProfile.smokingPreference && tv otherProfile.smokingPreference) ||
  (tv userProfile.petPreference && tv otherProfile.petPreference) ||
  (!(userProfile.hobbies.getD []).isEmpty && !(otherProfile.hobbies.getD []).isEmpty) ||
  (!(userProfile.interests.getD []).isEmpty && !(otherProfile.interests.getD []).isEmpty) ||
  (!(userProfile.roommateQualities.getD []).isEmpty) ||
  (tv userProfile.location && tv otherProfile.location)

/-- Profile with every nullable field absent. -/
def emptyProfile : UserProfile :=
  { id := 0, userId := 0, fullName := none, age := none, occupation := none,
    location := none, idealLocation := none, budget := none, hobbies := none,
    interests := none, lifestyle := none, cleanliness := none,
    smokingPreference := none, petPreference := none, roommateQualities := none,
    additionalInfo := none, profileComplete := false }

/-- Current user of the spec's worked scenario. -/
def profileA : UserProfile :=
  { emptyProfile with
    lifestyle := some ("early-bird")
    cleanliness := some ("clean")
    hobbies := some ["Hiking", "Cooking"]
    interests := some []
    roommateQualities := some []
    location := some ("Austin") }

/-- Candidate of the spec's worked scenario. -/
def profileB : UserProfile :=
  { emptyProfile with
    lifestyle := some ("early-bird")
    cleanliness := some ("clean")
    hobbies := some ["Cooking", "Yoga"]
    interests := some []
    roommateQualities := some []
    location := some ("Austin") }

/-- A profile that lists a desired roommate quality; paired with itself it
is field-for-field identical and shares all its hobbies and interests,
yet scores below 100. -/
def qualProfile : UserProfile :=
  { emptyProfile with
    lifestyle := some ("early-bird")
    hobbies := some ["Reading"]
    interests := some ["Music"]
    roommateQualities := some ["kind"] }

/-- A profile with lifestyle, hobby and interest data and no desired
qualities. -/
def perfectProfile : UserProfile :=
  { emptyProfile with
    lifestyle := some ("early-bird")
    hobbies := some ["Hiking"]
    interests := some ["Music"] }

/-- A profile whose only data is its current location. -/
def austinProfile : UserProfile :=
  { emptyProfile with location := some ("Austin") }

/-- Insert payload with every field absent. -/
def emptyInsertProfile : InsertUserProfile :=
  { fullName := none, age := none, occupation := none, location := none,
    idealLocation := none, budget := none, hobbies := none, interests := none,
    lifestyle := none, cleanliness := none, smokingPreference := none,
    petPreference := none, roommateQualities := none, additionalInfo := none }

/-- Insert payload with hobbies and interests but no full name at all
(the `fullName` key is absent, not null). -/
def ipNoName : InsertUserProfile :=
  { emptyInsertProfile with
    hobbies := some (some ["Hiking"])
    interests := some (some ["Music"]) }

def bobUser : InsertUser := { username := "bob", password := "pw", avatarUrl := none, bio := none }

/-- Store containing exactly one user (id 1). -/
def sBob : MemStorage := (createUser initStorage bobUser).2

def msg35 : InsertMessage := { senderId := 3, receiverId := 5, content := "hi", read := none }

def msg53 : InsertMessage := { senderId := 5, receiverId := 3, content := "yo", read := none }

def sSend1 : MemStorage := (sendMessage initStorage msg35 1 1).2

def sSend2 : MemStorage := (sendMessage sSend1 msg53 1 1).2

/-- State after two sends whose four `new Date()` draws all fall in the
same millisecond: both stored messages carry the same `createdAt`. -/
def sTie : MemStorage := (sendMessage (sendMessage initStorage msg35 0 0).2 msg53 0 0).2

/-- Unread count of an optional conversation, 0 when absent. -/
def unreadOf : Option Conversation → Nat
  | some c => c.unreadCount
  | none => 0

/-- Two stored conversation entries are compatible when their ids differ
and their (canonically ordered) user pairs differ. -/
def ConvRel (a b : Nat × Conversation) : Prop :=
  a.2.id ≠ b.2.id ∧ ¬(a.2.user1Id = b.2.user1Id ∧ a.2.user2Id = b.2.user2Id)

/-- Conversation-store invariant: every entry is keyed by its
conversation's id, canonically ordered, with an id below the counter; and
entries have pairwise distinct ids and pairwise distinct user pairs. -/
def ConvInv (s : MemStorage) : Prop :=
  (∀ e ∈ s.conversations,
    e.1 = e.2.id ∧ e.2.user1Id ≤ e.2.user2Id ∧ e.2.id < s.currentConversationId) ∧
  s.conversations.Pairwise ConvRel

/-- Message-store invariant: every entry is keyed by its message's id,
with an id below the counter and a creation time no later than the
clock; entries appear in nondecreasing creation-time order (two draws in
the same millisecond tie). -/
def MsgInv (s : MemStorage) : Prop :=
  (∀ e ∈ s.messages, e.1 = e.2.id ∧ e.2.id < s.currentMessageId ∧ e.2.createdAt ≤ s.now) ∧
  s.messages.Pairwise (fun a b => a.2.createdAt ≤ b.2.createdAt)

def StoreInv (s : MemStorage) : Prop := ConvInv s ∧ MsgInv s

/-! ## Helper lemmas: scorer -/

lemma decideRatPos (a : ℚ) (h : 0 < a) : decide (0 < a) = true := by
  simp only [decide_eq_true_eq]; exact h

lemma decideRatNotPos : decide ((0:ℚ) < 0) = false := by
  simp only [decide_eq_false_iff_not]; exact lt_irrefl 0

lemma if_weight_le (c1 c2 : Bool) (w : ℚ) (hw : 0 ≤ w) (himp : c1 = true → c2 = true) :
    0 ≤ (if c1 then w else 0) ∧ (if c1 then w else 0) ≤ (if c2 then w else 0) ∧
      0 ≤ (if c2 then w else 0) := by
  cases c1 <;> cases c2 <;> simp_all

lemma lifestyle_bounds (userProfile otherProfile : UserProfile) :
    0 ≤ (calculateLifestyleMatch userProfile otherProfile).score ∧
    (calculateLifestyleMatch userProfile otherProfile).score ≤
      (calculateLifestyleMatch userProfile otherProfile).maxScore ∧
    0 ≤ (calculateLifestyleMatch userProfile otherProfile).maxScore := by
  unfold calculateLifestyleMatch
  exact if_weight_le _ _ 20 (by norm_num) (fun h => by simp_all)

lemma cleanliness_bounds (userProfile otherProfile : UserProfile) :
    0 ≤ (calculateCleanlinessMatch userProfile otherProfile).score ∧
    (calculateCleanlinessMatch userProfile otherProfile).score ≤
      (calculateCleanlinessMatch userProfile otherProfile).maxScore ∧
    0 ≤ (calculateCleanlinessMatch userProfile otherProfile).maxScore := by
  unfold calculateCleanlinessMatch
  exact if_weight_le _ _ 15 (by norm_num) (fun h => by simp_all)

lemma smoking_bounds (userProfile otherProfile : UserProfile) :
    0 ≤ (calculateSmokingMatch userProfile otherProfile).score ∧
    (calculateSmokingMatch userProfile otherProfile).score ≤
      (calculateSmokingMatch userProfile otherProfile).maxScore ∧
    0 ≤ (calculateSmokingMatch userProfile otherProfile).maxScore := by
  unfold calculateSmokingMatch
  exact if_weight_le _ _ 15 (by norm_num) (fun h => by simp_all)

lemma pet_bounds (userProfile otherProfile : UserProfile) :
    0 ≤ (calculatePetMatch userProfile otherProfile).score ∧
    (calculatePetMatch userProfile otherProfile).score ≤
      (calculatePetMatch userProfile otherProfile).maxScore ∧
    0 ≤ (calculatePetMatch userProfile otherProfile).maxScore := by
  unfold calculatePetMatch
  exact if_weight_le _ _ 10 (by norm_num) (fun h => by simp_all)

lemma ratio_times_le (num den w : ℚ) (h0 : 0 ≤ num) (h1 : num ≤ den) (hd : 0 < den)
    (hw : 0 ≤ w) : 0 ≤ num / den * w ∧ num / den * w ≤ w := by
  constructor
  · exact mul_nonneg (div_nonneg h0 hd.le) hw
  · have hr : num / den ≤ 1 := (div_le_one hd).mpr h1
    nlinarith

lemma hobby_bounds (userProfile otherProfile : UserProfile) :
    0 ≤ (calculateHobbyMatch userProfile otherProfile).score ∧
    (calculateHobbyMatch userProfile otherProfile).score ≤
      (calculateHobbyMatch userProfile otherProfile).maxScore ∧
    0 ≤ (calculateHobbyMatch userProfile otherProfile).maxScore := by
  unfold calculateHobbyMatch
  rcases userProfile.hobbies with _ | uh <;> rcases otherProfile.hobbies with _ | oh <;>
    try (exact ⟨le_refl 0, le_refl 0, le_refl 0⟩)
  by_cases hlen : (uh.length == 0 || oh.length == 0) = true
  · simp only [hlen, if_pos]
    exact ⟨le_refl 0, le_refl 0, le_refl 0⟩
  · simp only [hlen, if_neg, Bool.not_eq_true]
    have hmax : (0:ℚ) < max (uh.length : ℚ) 1 :=
      lt_of_lt_of_le zero_lt_one (le_max_right _ _)
    have hle : ((uh.filter (fun hobby =>
        oh.any (fun otherHobby => lcEq otherHobby hobby))).length : ℚ) ≤
        max (uh.length : ℚ) 1 := by
      refine le_trans ?_ (le_max_left _ _)
      exact_mod_cast List.length_filter_le _ _
    have := ratio_times_le _ _ 20 (by positivity) hle hmax (by norm_num)
    exact ⟨this.1, this.2, by norm_num⟩

lemma interest_bounds (userProfile otherProfile : UserProfile) :
    0 ≤ (calculateInterestMatch userProfile otherProfile).score ∧
    (calculateInterestMatch userProfile otherProfile).score ≤
      (calculateInterestMatch userProfile otherProfile).maxScore ∧
    0 ≤ (calculateInterestMatch userProfile otherProfile).maxScore := by
  unfold calculateInterestMatch
  rcases userProfile.interests with _ | ui <;> rcases otherProfile.interests with _ | oi <;>
    try (exact ⟨le_refl 0, le_refl 0, le_refl 0⟩)
  by_cases hlen : (ui.length == 0 || oi.length == 0) = true
  · simp only [hlen, if_pos]
    exact ⟨le_refl 0, le_refl 0, le_refl 0⟩
  · simp only [hlen, if_neg, Bool.not_eq_true]
    have hmax : (0:ℚ) < max (ui.length : ℚ) 1 :=
      lt_of_lt_of_le zero_lt_one (le_max_right _ _)
    have hle : ((ui.filter (fun interest =>
        oi.any (fun otherInterest => lcEq otherInterest interest))).length : ℚ) ≤
        max (ui.length : ℚ) 1 := by
      refine le_trans ?_ (le_max_left _ _)
      exact_mod_cast List.length_filter_le _ _
    have := ratio_times_le _ _ 20 (by positivity) hle hmax (by norm_num)
    exact ⟨this.1, this.2, by norm_num⟩

lemma quality_bounds (userProfile otherProfile : UserProfile) :
    0 ≤ (calculateRoommateQualityMatch userProfile otherProfile).score ∧
    (calculateRoommateQualityMatch userProfile otherProfile).score ≤
      (calculateRoommateQualityMatch userProfile otherProfile).maxScore ∧
    0 ≤ (calculateRoommateQualityMatch userProfile otherProfile).maxScore := by
  unfold calculateRoommateQualityMatch
  rcases userProfile.roommateQualities with _ | dq
  · exact ⟨le_refl 0, le_refl 0, le_refl 0⟩
  by_cases hlen : (dq.length == 0) = true
  · simp only [hlen, if_pos]
    exact ⟨le_refl 0, le_refl 0, le_refl 0⟩
  · simp only [hlen, if_neg, Bool.not_eq_true]
    refine ⟨le_min (by norm_num) ?_, min_le_left _ _, by norm_num⟩
    have : (0:ℚ) ≤ (dq.countP (fun quality =>
        containsSeq ((otherProfile.additionalInfo.map jsLower).getD []) (jsLower quality)) : ℚ) /
        (dq.length : ℚ) := by positivity
    positivity

lemma location_bounds (userProfile otherProfile : UserProfile) :
    0 ≤ (calculateLocationMatch userProfile otherProfile).score ∧
    (calculateLocationMatch userProfile otherProfile).score ≤
      (calculateLocationMatch userProfile otherProfile).maxScore ∧
    0 ≤ (calculateLocationMatch userProfile otherProfile).maxScore := by
  unfold calculateLocationMatch
  rcases userProfile.location with _ | uloc <;> rcases otherProfile.location with _ | oloc <;>
    try (exact ⟨le_refl 0, le_refl 0, le_refl 0⟩)
  by_cases hempty : (uloc == "" || oloc == "") = true
  · simp only [hempty, if_pos]
    exact ⟨le_refl 0, le_refl 0, le_refl 0⟩
  · simp only [hempty, if_neg, Bool.not_eq_true]
    split_ifs <;> norm_num

lemma mem_categories_bounds (userProfile otherProfile : UserProfile) :
    ∀ c ∈ categories userProfile otherProfile,
      0 ≤ c.score ∧ c.score ≤ c.maxScore ∧ 0 ≤ c.maxScore := by
  intro c hc
  rw [categories, List.mem_filter] at hc
  have hmem := hc.1
  simp only [List.mem_cons, List.not_mem_nil, or_false] at hmem
  rcases hmem with h | h | h | h | h | h | h | h <;> subst h
  · exact lifestyle_bounds userProfile otherProfile
  · exact cleanliness_bounds userProfile otherProfile
  · exact smoking_bounds userProfile otherProfile
  · exact pet_bounds userProfile otherProfile
  · exact hobby_bounds userProfile otherProfile
  · exact interest_bounds userProfile otherProfile
  · exact quality_bounds userProfile otherProfile
  · exact location_bounds userProfile otherProfile

lemma foldl_score_eq : ∀ (l : List MatchCategoryScore) (a : ℚ),
    List.foldl (fun sum category => sum + category.score) a l =
      a + (l.map MatchCategoryScore.score).sum := by
  intro l
  induction l with
  | nil => intro a; simp
  | cons x xs ih => intro a; simp [ih, add_assoc]

lemma foldl_max_eq : ∀ (l : List MatchCategoryScore) (a : ℚ),
    List.foldl (fun sum category => sum + category.maxScore) a l =
      a + (l.map MatchCategoryScore.maxScore).sum := by
  intro l
  induction l with
  | nil => intro a; simp
  | cons x xs ih => intro a; simp [ih, add_assoc]

lemma totalScore_eq (userProfile otherProfile : UserProfile) :
    totalScore userProfile otherProfile =
      ((categories userProfile otherProfile).map MatchCategoryScore.score).sum := by
  rw [totalScore, foldl_score_eq, zero_add]

lemma totalMaxScore_eq (userProfile otherProfile : UserProfile) :
    totalMaxScore userProfile otherProfile =
      ((categories userProfile otherProfile).map MatchCategoryScore.maxScore).sum := by
  rw [totalMaxScore, foldl_max_eq, zero_add]

lemma totalScore_nonneg (userProfile otherProfile : UserProfile) :
    0 ≤ totalScore userProfile otherProfile := by
  rw [totalScore_eq]
  apply List.sum_nonneg
  intro x hx
  rcases List.mem_map.mp hx with ⟨c, hc, rfl⟩
  exact (mem_categories_bounds userProfile otherProfile c hc).1

lemma totalScore_le_totalMaxScore (userProfile otherProfile : UserProfile) :
    totalScore userProfile otherProfile ≤ totalMaxScore userProfile otherProfile := by
  rw [totalScore_eq, totalMaxScore_eq]
  apply List.sum_le_sum
  intro c hc
  exact (mem_categories_bounds userProfile otherProfile c hc).2.1

/-! ## Claim theorems: scorer -/

/-- C1: for the spec's worked scenario (both "early-bird", both "clean",
no smoking/pet data, hobbies ["Hiking","Cooking"] vs ["Cooking","Yoga"],
no interest or quality data, both in "Austin") the overall percentage is
exactly 86. -/
theorem scenario_overallPercentage_86 : overallPercentage profileA profileB = 86 := by
  simp +decide [overallPercentage, totalScore, totalMaxScore, categories,
    calculateLifestyleMatch, calculateCleanlinessMatch, calculateSmokingMatch,
    calculatePetMatch, calculateHobbyMatch, calculateInterestMatch,
    calculateRoommateQualityMatch, calculateLocationMatch, profileA, profileB,
    emptyProfile, tv, lcEq, jsLower, jsRound, containsSeq,
    List.filter_cons, decideRatPos, decideRatNotPos]
  norm_num [jsRound]

/-- C3: the overall percentage is always an integer between 0 and 100, and
it is exactly 0 when no category has data from both profiles (total
possible points 0). -/
theorem overallPercentage_range (userProfile otherProfile : UserProfile) :
    0 ≤ overallPercentage userProfile otherProfile ∧
    overallPercentage userProfile otherProfile ≤ 100 ∧
    (totalMaxScore userProfile otherProfile = 0 →
      overallPercentage userProfile otherProfile = 0) := by
  by_cases h : 0 < totalMaxScore userProfile otherProfile
  · have hts0 := totalScore_nonneg userProfile otherProfile
    have htsle := totalScore_le_totalMaxScore userProfile otherProfile
    have hr0 : 0 ≤ totalScore userProfile otherProfile / totalMaxScore userProfile otherProfile :=
      div_nonneg hts0 h.le
    have hr1 : totalScore userProfile otherProfile / totalMaxScore userProfile otherProfile ≤ 1 :=
      (div_le_one h).mpr htsle
    rw [overallPercentage, if_pos h]
    refine ⟨?_, ?_, fun h0 => absurd h0 (ne_of_gt h)⟩
    · apply Int.le_floor.mpr
      push_cast
      nlinarith
    · have hfl : jsRound (totalScore userProfile otherProfile /
          totalMaxScore userProfile otherProfile * 100) ≤ ⌊(201/2 : ℚ)⌋ := by
        apply Int.floor_le_floor
        nlinarith
      have : (⌊(201/2 : ℚ)⌋ : ℤ) = 100 := by norm_num
      rw [this] at hfl
      exact hfl
  · rw [overallPercentage, if_neg h]
    exact ⟨le_refl 0, by norm_num, fun _ => rfl⟩

/-! ## Helper lemmas: identical profiles score their maximum -/

lemma lifestyle_perfect (userProfile otherProfile : UserProfile)
    (h : userProfile.lifestyle = otherProfile.lifestyle) :
    (calculateLifestyleMatch userProfile otherProfile).score =
      (calculateLifestyleMatch userProfile otherProfile).maxScore := by
  unfold calculateLifestyleMatch
  rw [h]
  cases htv : tv otherProfile.lifestyle <;> simp [htv]

lemma cleanliness_perfect (userProfile otherProfile : UserProfile)
    (h : userProfile.cleanliness = otherProfile.cleanliness) :
    (calculateCleanlinessMatch userProfile otherProfile).score =
      (calculateCleanlinessMatch userProfile otherProfile).maxScore := by
  unfold calculateCleanlinessMatch
  rw [h]
  cases htv : tv otherProfile.cleanliness <;> simp [htv]

lemma smoking_perfect (userProfile otherProfile : UserProfile)
    (h : userProfile.smokingPreference = otherProfile.smokingPreference) :
    (calculateSmokingMatch userProfile otherProfile).score =
      (calculateSmokingMatch userProfile otherProfile).maxScore := by
  unfold calculateSmokingMatch
  rw [h]
  cases htv : tv otherProfile.smokingPreference <;> simp [htv]

lemma pet_perfect (userProfile otherProfile : UserProfile)
    (h : userProfile.petPreference = otherProfile.petPreference) :
    (calculatePetMatch userProfile otherProfile).score =
      (calculatePetMatch userProfile otherProfile).maxScore := by
  unfold calculatePetMatch
  rw [h]
  cases htv : tv otherProfile.petPreference <;> simp [htv]

lemma hobby_perfect (userProfile otherProfile : UserProfile)
    (hh : ∀ h ∈ userProfile.hobbies.getD [],
      ∃ o ∈ otherProfile.hobbies.getD [], lcEq o h = true) :
    (calculateHobbyMatch userProfile otherProfile).score =
      (calculateHobbyMatch userProfile otherProfile).maxScore := by
  unfold calculateHobbyMatch
  rcases hu : userProfile.hobbies with _ | uh <;> rcases ho : otherProfile.hobbies with _ | oh <;>
    try rfl
  rw [hu, ho] at hh
  simp only [Option.getD_some] at hh
  by_cases hlen : (uh.length == 0 || oh.length == 0) = true
  · simp [hlen]
  · simp only [hlen, if_neg, Bool.not_eq_true]
    have hfilter : uh.filter (fun hobby =>
        oh.any (fun otherHobby => lcEq otherHobby hobby)) = uh := by
      apply List.filter_eq_self.mpr
      intro a ha
      rcases hh a ha with ⟨o, ho', heq⟩
      exact List.any_eq_true.mpr ⟨o, ho', heq⟩
    rw [hfilter]
    have hne : uh.length ≠ 0 := by
      intro h0
      simp [h0] at hlen
    have h1 : (1:ℚ) ≤ (uh.length : ℚ) := by
      exact_mod_cast Nat.one_le_iff_ne_zero.mpr hne
    rw [max_eq_left h1, div_self (by positivity), one_mul]

lemma interest_perfect (userProfile otherProfile : UserProfile)
    (hh : ∀ h ∈ userProfile.interests.getD [],
      ∃ o ∈ otherProfile.interests.getD [], lcEq o h = true) :
    (calculateInterestMatch userProfile otherProfile).score =
      (calculateInterestMatch userProfile otherProfile).maxScore := by
  unfold calculateInterestMatch
  rcases hu : userProfile.interests with _ | ui <;> rcases ho : otherProfile.interests with _ | oi <;>
    try rfl
  rw [hu, ho] at hh
  simp only [Option.getD_some] at hh
  by_cases hlen : (ui.length == 0 || oi.length == 0) = true
  · simp [hlen]
  · simp only [hlen, if_neg, Bool.not_eq_true]
    have hfilter : ui.filter (fun interest =>
        oi.any (fun otherInterest => lcEq otherInterest interest)) = ui := by
      apply List.filter_eq_self.mpr
      intro a ha
      rcases hh a ha with ⟨o, ho', heq⟩
      exact List.any_eq_true.mpr ⟨o, ho', heq⟩
    rw [hfilter]
    have hne : ui.length ≠ 0 := by
      intro h0
      simp [h0] at hlen
    have h1 : (1:ℚ) ≤ (ui.length : ℚ) := by
      exact_mod_cast Nat.one_le_iff_ne_zero.mpr hne
    rw [max_eq_left h1, div_self (by positivity), one_mul]

lemma quality_excluded (userProfile otherProfile : UserProfile)
    (hq : userProfile.roommateQualities.getD [] = []) :
    calculateRoommateQualityMatch userProfile otherProfile = ⟨0, 0⟩ := by
  unfold calculateRoommateQualityMatch
  rcases hu : userProfile.roommateQualities with _ | dq
  · rfl
  · rw [hu] at hq
    simp only [Option.getD_some] at hq
    subst hq
    rfl

lemma location_perfect (userProfile otherProfile : UserProfile)
    (h : userProfile.location = otherProfile.location) :
    (calculateLocationMatch userProfile otherProfile).score =
      (calculateLocationMatch userProfile otherProfile).maxScore := by
  unfold calculateLocationMatch
  rw [h]
  rcases otherProfile.location with _ | oloc
  · rfl
  by_cases hempty : (oloc == "" || oloc == "") = true
  · have h0 : oloc = "" := by simpa using hempty
    simp [h0]
  · simp only [hempty, if_neg, Bool.not_eq_true]
    have hcur : lcEq oloc oloc = true := by
      unfold lcEq
      exact beq_self_eq_true _
    simp [hcur]

/-! ## Helper lemmas: a category with data makes the maximum positive -/

lemma mem8_of_categories (userProfile otherProfile : UserProfile)
    (c : MatchCategoryScore)
    (hmem : c ∈ [calculateLifestyleMatch userProfile otherProfile,
      calculateCleanlinessMatch userProfile otherProfile,
      calculateSmokingMatch userProfile otherProfile,
      calculatePetMatch userProfile otherProfile,
      calculateHobbyMatch userProfile otherProfile,
      calculateInterestMatch userProfile otherProfile,
      calculateRoommateQualityMatch userProfile otherProfile,
      calculateLocationMatch userProfile otherProfile])
    (hpos : 0 < c.maxScore) : c ∈ categories userProfile otherProfile := by
  rw [categories, List.mem_filter]
  exact ⟨hmem, by simpa using hpos⟩

lemma totalMax_pos_of_cat (userProfile otherProfile : UserProfile)
    (c : MatchCategoryScore) (hmem : c ∈ categories userProfile otherProfile)
    (hpos : 0 < c.maxScore) : 0 < totalMaxScore userProfile otherProfile := by
  rw [totalMaxScore_eq]
  have hb : ∀ x ∈ (categories userProfile otherProfile).map MatchCategoryScore.maxScore,
      0 ≤ x := by
    intro x hx
    rcases List.mem_map.mp hx with ⟨d, hd, rfl⟩
    exact (mem_categories_bounds userProfile otherProfile d hd).2.2
  have hle := List.single_le_sum hb c.maxScore (List.mem_map_of_mem _ hmem)
  exact lt_of_lt_of_le hpos hle

lemma lifestyleMax_of_data (userProfile otherProfile : UserProfile)
    (h1 : tv userProfile.lifestyle = true) (h2 : tv otherProfile.lifestyle = true) :
    (calculateLifestyleMatch userProfile otherProfile).maxScore = 20 := by
  unfold calculateLifestyleMatch
  simp [h1, h2]

lemma cleanlinessMax_of_data (userProfile otherProfile : UserProfile)
    (h1 : tv userProfile.cleanliness = true) (h2 : tv otherProfile.cleanliness = true) :
    (calculateCleanlinessMatch userProfile otherProfile).maxScore = 15 := by
  unfold calculateCleanlinessMatch
  simp [h1, h2]

lemma smokingMax_of_data (userProfile otherProfile : UserProfile)
    (h1 : tv userProfile.smokingPreference = true)
    (h2 : tv otherProfile.smokingPreference = true) :
    (calculateSmokingMatch userProfile otherProfile).maxScore = 15 := by
  unfold calculateSmokingMatch
  simp [h1, h2]

lemma petMax_of_data (userProfile otherProfile : UserProfile)
    (h1 : tv userProfile.petPreference = true) (h2 : tv otherProfile.petPreference = true) :
    (calculatePetMatch userProfile otherProfile).maxScore = 10 := by
  unfold calculatePetMatch
  simp [h1, h2]

lemma hobbyMax_of_data (userProfile otherProfile : UserProfile)
    (h1 : (!(userProfile.hobbies.getD []).isEmpty) = true)
    (h2 : (!(otherProfile.hobbies.getD []).isEmpty) = true) :
    (calculateHobbyMatch userProfile otherProfile).maxScore = 20 := by
  unfold calculateHobbyMatch
  rcases hu : userProfile.hobbies with _ | uh <;> rw [hu] at h1 <;> simp at h1
  rcases ho : otherProfile.hobbies with _ | oh <;> rw [ho] at h2 <;> simp at h2
  have hlen : (uh.length == 0 || oh.length == 0) = false := by
    simp [List.length_eq_zero, h1, h2]
  simp [hlen]

lemma interestMax_of_data (userProfile otherProfile : UserProfile)
    (h1 : (!(userProfile.interests.getD []).isEmpty) = true)
    (h2 : (!(otherProfile.interests.getD []).isEmpty) = true) :
    (calculateInterestMatch userProfile otherProfile).maxScore = 20 := by
  unfold calculateInterestMatch
  rcases hu : userProfile.interests with _ | ui <;> rw [hu] at h1 <;> simp at h1
  rcases ho : otherProfile.interests with _ | oi <;> rw [ho] at h2 <;> simp at h2
  have hlen : (ui.length == 0 || oi.length == 0) = false := by
    simp [List.length_eq_zero, h1, h2]
  simp [hlen]

lemma qualityMax_of_data (userProfile otherProfile : UserProfile)
    (h1 : (!(userProfile.roommateQualities.getD []).isEmpty) = true) :
    (calculateRoommateQualityMatch userProfile otherProfile).maxScore = 10 := by
  unfold calculateRoommateQualityMatch
  rcases hu : userProfile.roommateQualities with _ | dq <;> rw [hu] at h1 <;> simp at h1
  have hlen : (dq.length == 0) = false := by
    simp [List.length_eq_zero, h1]
  simp [hlen]

lemma locationMax_of_data (userProfile otherProfile : UserProfile)
    (h1 : tv userProfile.location = true) (h2 : tv otherProfile.location = true) :
    (calculateLocationMatch userProfile otherProfile).maxScore = 15 := by
  unfold calculateLocationMatch
  rcases hu : userProfile.location with _ | uloc <;> rw [hu] at h1 <;> simp [tv] at h1
  rcases ho : otherProfile.location with _ | oloc <;> rw [ho] at h2 <;> simp [tv] at h2
  have hempty : (uloc == "" || oloc == "") = false := by
    simp [h1, h2]
  simp [hempty]

lemma hasData_totalMax_pos (userProfile otherProfile : UserProfile)
    (h : hasComparableData userProfile otherProfile = true) :
    0 < totalMaxScore userProfile otherProfile := by
  rw [hasComparableData] at h
  simp only [Bool.or_eq_true, Bool.and_eq_true] at h
  rcases h with ((((((⟨h1, h2⟩ | ⟨h1, h2⟩) | ⟨h1, h2⟩) | ⟨h1, h2⟩) | ⟨h1, h2⟩) | ⟨h1, h2⟩) | h1) | ⟨h1, h2⟩
  · have hpos : 0 < (calculateLifestyleMatch userProfile otherProfile).maxScore := by
      rw [lifestyleMax_of_data _ _ h1 h2]; norm_num
    exact totalMax_pos_of_cat _ _ _ (mem8_of_categories _ _ _ (by simp) hpos) hpos
  · have hpos : 0 < (calculateCleanlinessMatch userProfile otherProfile).maxScore := by
      rw [cleanlinessMax_of_data _ _ h1 h2]; norm_num
    exact totalMax_pos_of_cat _ _ _ (mem8_of_categories _ _ _ (by simp) hpos) hpos
  · have hpos : 0 < (calculateSmokingMatch userProfile otherProfile).maxScore := by
      rw [smokingMax_of_data _ _ h1 h2]; norm_num
    exact totalMax_pos_of_cat _ _ _ (mem8_of_categories _ _ _ (by simp) hpos) hpos
  · have hpos : 0 < (calculatePetMatch userProfile otherProfile).maxScore := by
      rw [petMax_of_data _ _ h1 h2]; norm_num
    exact totalMax_pos_of_cat _ _ _ (mem8_of_categories _ _ _ (by simp) hpos) hpos
  · have hpos : 0 < (calculateHobbyMatch userProfile otherProfile).maxScore := by
      rw [hobbyMax_of_data _ _ h1 h2]; norm_num
    exact totalMax_pos_of_cat _ _ _ (mem8_of_categories _ _ _ (by simp) hpos) hpos
  · have hpos : 0 < (calculateInterestMatch userProfile otherProfile).maxScore := by
      rw [interestMax_of_data _ _ h1 h2]; norm_num
    exact totalMax_pos_of_cat _ _ _ (mem8_of_categories _ _ _ (by simp) hpos) hpos
  · have hpos : 0 < (calculateRoommateQualityMatch userProfile otherProfile).maxScore := by
      rw [qualityMax_of_data _ _ h1]; norm_num
    exact totalMax_pos_of_cat _ _ _ (mem8_of_categories _ _ _ (by simp) hpos) hpos
  · have hpos : 0 < (calculateLocationMatch userProfile otherProfile).maxScore := by
      rw [locationMax_of_data _ _ h1 h2]; norm_num
    exact totalMax_pos_of_cat _ _ _ (mem8_of_categories _ _ _ (by simp) hpos) hpos

/-! ## Claim theorems: identical profiles (C2) -/

/-- C2 counterexample: `qualProfile` is field-for-field identical to
itself on every comparable field and (vacuously) shares all hobbies and
interests with itself, yet the score is 86 rather than 100, because the
listed desired roommate quality is not found in the (absent) additional
info. -/
theorem identical_with_quality_not_100 :
    overallPercentage qualProfile qualProfile ≠ 100 := by
  have h : overallPercentage qualProfile qualProfile = 86 := by
    simp +decide [overallPercentage, totalScore, totalMaxScore, categories,
      calculateLifestyleMatch, calculateCleanlinessMatch, calculateSmokingMatch,
      calculatePetMatch, calculateHobbyMatch, calculateInterestMatch,
      calculateRoommateQualityMatch, calculateLocationMatch, qualProfile,
      emptyProfile, tv, lcEq, jsLower, jsRound, containsSeq,
      List.filter_cons, decideRatPos, decideRatNotPos]
    norm_num [jsRound]
  rw [h]
  norm_num

/-- C2 (amended): two profiles that agree on every comparable field, where
the current user's hobbies and interests each occur (case-insensitively)
in the candidate's lists, the current user lists no desired roommate
qualities, and at least one category has data from both sides, score
exactly 100. -/
theorem identical_profiles_score_100 (userProfile otherProfile : UserProfile)
    (hlife : userProfile.lifestyle = otherProfile.lifestyle)
    (hclean : userProfile.cleanliness = otherProfile.cleanliness)
    (hsmoke : userProfile.smokingPreference = otherProfile.smokingPreference)
    (hpet : userProfile.petPreference = otherProfile.petPreference)
    (hloc : userProfile.location = otherProfile.location)
    (hhob : ∀ h ∈ userProfile.hobbies.getD [],
      ∃ o ∈ otherProfile.hobbies.getD [], lcEq o h = true)
    (hint : ∀ h ∈ userProfile.interests.getD [],
      ∃ o ∈ otherProfile.interests.getD [], lcEq o h = true)
    (hqual : userProfile.roommateQualities.getD [] = [])
    (hdata : hasComparableData userProfile otherProfile = true) :
    overallPercentage userProfile otherProfile = 100 := by
  have hmax := hasData_totalMax_pos userProfile otherProfile hdata
  have hts : totalScore userProfile otherProfile = totalMaxScore userProfile otherProfile := by
    rw [totalScore_eq, totalMaxScore_eq]
    apply congrArg
    apply List.map_congr_left
    intro c hc
    rw [categories, List.mem_filter] at hc
    have hmem := hc.1
    simp only [List.mem_cons, List.not_mem_nil, or_false] at hmem
    rcases hmem with h | h | h | h | h | h | h | h <;> subst h
    · exact lifestyle_perfect userProfile otherProfile hlife
    · exact cleanliness_perfect userProfile otherProfile hclean
    · exact smoking_perfect userProfile otherProfile hsmoke
    · exact pet_perfect userProfile otherProfile hpet
    · exact hobby_perfect userProfile otherProfile hhob
    · exact interest_perfect userProfile otherProfile hint
    · rw [quality_excluded userProfile otherProfile hqual]
    · exact location_perfect userProfile otherProfile hloc
  rw [overallPercentage, if_pos hmax, hts, div_self (ne_of_gt hmax), one_mul]
  norm_num [jsRound]

/-- C2 witness: a concrete profile pair satisfying the amended
hypotheses scores 100. -/
theorem identical_profiles_score_100_witness :
    overallPercentage perfectProfile perfectProfile = 100 :=
  identical_profiles_score_100 perfectProfile perfectProfile rfl rfl rfl rfl rfl
    (by decide) (by decide) rfl (by decide)

/-! ## Helper lemmas: relating the two scorer implementations (C10) -/

lemma mp_lifestyle_points_eq (userProfile otherProfile : UserProfile) :
    mpLifestylePoints userProfile otherProfile =
      (calculateLifestyleMatch userProfile otherProfile).score := by
  unfold mpLifestylePoints calculateLifestyleMatch
  cases hc : (tv userProfile.lifestyle && tv otherProfile.lifestyle) <;>
    cases he : (userProfile.lifestyle == otherProfile.lifestyle) <;> simp [hc, he]

lemma mp_lifestyle_max_eq (userProfile otherProfile : UserProfile) :
    mpLifestyleMax userProfile otherProfile =
      (calculateLifestyleMatch userProfile otherProfile).maxScore := rfl

lemma mp_cleanliness_points_eq (userProfile otherProfile : UserProfile) :
    mpCleanlinessPoints userProfile otherProfile =
      (calculateCleanlinessMatch userProfile otherProfile).score := by
  unfold mpCleanlinessPoints calculateCleanlinessMatch
  cases hc : (tv userProfile.cleanliness && tv otherProfile.cleanliness) <;>
    cases he : (userProfile.cleanliness == otherProfile.cleanliness) <;> simp [hc, he]

lemma mp_cleanliness_max_eq (userProfile otherProfile : UserProfile) :
    mpCleanlinessMax userProfile otherProfile =
      (calculateCleanlinessMatch userProfile otherProfile).maxScore := rfl

lemma mp_smoking_points_eq (userProfile otherProfile : UserProfile) :
    mpSmokingPoints userProfile otherProfile =
      (calculateSmokingMatch userProfile otherProfile).score := by
  unfold mpSmokingPoints calculateSmokingMatch
  cases hc : (tv userProfile.smokingPreference && tv otherProfile.smokingPreference) <;>
    cases he : (userProfile.smokingPreference == otherProfile.smokingPreference) <;>
      simp [hc, he]

lemma mp_smoking_max_eq (userProfile otherProfile : UserProfile) :
    mpSmokingMax userProfile otherProfile =
      (calculateSmokingMatch userProfile otherProfile).maxScore := rfl

lemma mp_pet_points_eq (userProfile otherProfile : UserProfile) :
    mpPetPoints userProfile otherProfile =
      (calculatePetMatch userProfile otherProfile).score := by
  unfold mpPetPoints calculatePetMatch
  cases hc : (tv userProfile.petPreference && tv otherProfile.petPreference) <;>
    cases he : (userProfile.petPreference == otherProfile.petPreference) <;> simp [hc, he]

lemma mp_pet_max_eq (userProfile otherProfile : UserProfile) :
    mpPetMax userProfile otherProfile =
      (calculatePetMatch userProfile otherProfile).maxScore := rfl

lemma mp_hobby_eq (userProfile otherProfile : UserProfile)
    (hh : userProfile.hobbies.isSome → otherProfile.hobbies.isSome →
      userProfile.hobbies.getD [] ≠ [] ∧ otherProfile.hobbies.getD [] ≠ []) :
    mpHobbyPoints userProfile otherProfile =
      (calculateHobbyMatch userProfile otherProfile).score ∧
    mpHobbyMax userProfile otherProfile =
      (calculateHobbyMatch userProfile otherProfile).maxScore := by
  unfold mpHobbyPoints mpHobbyMax calculateHobbyMatch
  rcases hu : userProfile.hobbies with _ | uh <;> rcases ho : otherProfile.hobbies with _ | oh <;>
    try exact ⟨rfl, rfl⟩
  obtain ⟨h1, h2⟩ := hh (by rw [hu]; rfl) (by rw [ho]; rfl)
  rw [hu] at h1
  rw [ho] at h2
  simp only [Option.getD_some] at h1 h2
  have hlen : (uh.length == 0 || oh.length == 0) = false := by
    simp [List.length_eq_zero, h1, h2]
  simp [hlen]

lemma mp_interest_eq (userProfile otherProfile : UserProfile)
    (hi : userProfile.interests.isSome → otherProfile.interests.isSome →
      userProfile.interests.getD [] ≠ [] ∧ otherProfile.interests.getD [] ≠ []) :
    mpInterestPoints userProfile otherProfile =
      (calculateInterestMatch userProfile otherProfile).score ∧
    mpInterestMax userProfile otherProfile =
      (calculateInterestMatch userProfile otherProfile).maxScore := by
  unfold mpInterestPoints mpInterestMax calculateInterestMatch
  rcases hu : userProfile.interests with _ | ui <;>
    rcases ho : otherProfile.interests with _ | oi <;> try exact ⟨rfl, rfl⟩
  obtain ⟨h1, h2⟩ := hi (by rw [hu]; rfl) (by rw [ho]; rfl)
  rw [hu] at h1
  rw [ho] at h2
  simp only [Option.getD_some] at h1 h2
  have hlen : (ui.length == 0 || oi.length == 0) = false := by
    simp [List.length_eq_zero, h1, h2]
  simp [hlen]

lemma location_excluded (userProfile otherProfile : UserProfile)
    (hloc : (tv userProfile.location && tv otherProfile.location) = false) :
    calculateLocationMatch userProfile otherProfile = ⟨0, 0⟩ := by
  unfold calculateLocationMatch
  rcases hu : userProfile.location with _ | uloc <;>
    rcases ho : otherProfile.location with _ | oloc <;> try rfl
  rw [hu, ho] at hloc
  simp only [tv, Bool.and_eq_false_iff, bne_eq_false_iff_eq, beq_iff_eq] at hloc
  have hempty : (uloc == "" || oloc == "") = true := by
    rcases hloc with h | h <;> simp [h]
  simp [hempty]

lemma sum_map_filter_of_zero (f : MatchCategoryScore → ℚ) :
    ∀ (l : List MatchCategoryScore), (∀ c ∈ l, ¬(0 < c.maxScore) → f c = 0) →
      ((l.filter (fun category => decide (0 < category.maxScore))).map f).sum =
        (l.map f).sum := by
  intro l
  induction l with
  | nil => intro _; rfl
  | cons x xs ih =>
    intro h
    have hxs := ih (fun c hc => h c (List.mem_cons_of_mem x hc))
    by_cases hx : 0 < x.maxScore
    · rw [List.filter_cons_of_pos (by simpa using hx), List.map_cons, List.sum_cons,
        hxs, List.map_cons, List.sum_cons]
    · have hz := h x (List.mem_cons_self x xs) hx
      rw [List.filter_cons_of_neg (by simpa using hx), hxs, List.map_cons,
        List.sum_cons, hz, zero_add]

lemma cat_zero_of_not_pos (userProfile otherProfile : UserProfile) :
    ∀ c ∈ [calculateLifestyleMatch userProfile otherProfile,
      calculateCleanlinessMatch userProfile otherProfile,
      calculateSmokingMatch userProfile otherProfile,
      calculatePetMatch userProfile otherProfile,
      calculateHobbyMatch userProfile otherProfile,
      calculateInterestMatch userProfile otherProfile,
      calculateRoommateQualityMatch userProfile otherProfile,
      calculateLocationMatch userProfile otherProfile],
      0 ≤ c.score ∧ c.score ≤ c.maxScore ∧ 0 ≤ c.maxScore := by
  intro c hmem
  simp only [List.mem_cons, List.not_mem_nil, or_false] at hmem
  rcases hmem with h | h | h | h | h | h | h | h <;> subst h
  · exact lifestyle_bounds userProfile otherProfile
  · exact cleanliness_bounds userProfile otherProfile
  · exact smoking_bounds userProfile otherProfile
  · exact pet_bounds userProfile otherProfile
  · exact hobby_bounds userProfile otherProfile
  · exact interest_bounds userProfile otherProfile
  · exact quality_bounds userProfile otherProfile
  · exact location_bounds userProfile otherProfile

lemma totalScore_full (userProfile otherProfile : UserProfile) :
    totalScore userProfile otherProfile =
      (calculateLifestyleMatch userProfile otherProfile).score +
      (calculateCleanlinessMatch userProfile otherProfile).score +
      (calculateSmokingMatch userProfile otherProfile).score +
      (calculatePetMatch userProfile otherProfile).score +
      (calculateHobbyMatch userProfile otherProfile).score +
      (calculateInterestMatch userProfile otherProfile).score +
      (calculateRoommateQualityMatch userProfile otherProfile).score +
      (calculateLocationMatch userProfile otherProfile).score := by
  rw [totalScore_eq, categories]
  rw [sum_map_filter_of_zero]
  · simp [add_assoc]
  · intro c hc hpos
    have hb := cat_zero_of_not_pos userProfile otherProfile c hc
    have hmax0 : c.maxScore = 0 := le_antisymm (not_lt.mp hpos) hb.2.2
    exact le_antisymm (hmax0 ▸ hb.2.1) hb.1

lemma totalMaxScore_full (userProfile otherProfile : UserProfile) :
    totalMaxScore userProfile otherProfile =
      (calculateLifestyleMatch userProfile otherProfile).maxScore +
      (calculateCleanlinessMatch userProfile otherProfile).maxScore +
      (calculateSmokingMatch userProfile otherProfile).maxScore +
      (calculatePetMatch userProfile otherProfile).maxScore +
      (calculateHobbyMatch userProfile otherProfile).maxScore +
      (calculateInterestMatch userProfile otherProfile).maxScore +
      (calculateRoommateQualityMatch userProfile otherProfile).maxScore +
      (calculateLocationMatch userProfile otherProfile).maxScore := by
  rw [totalMaxScore_eq, categories]
  rw [sum_map_filter_of_zero]
  · simp [add_assoc]
  · intro c hc hpos
    have hb := cat_zero_of_not_pos userProfile otherProfile c hc
    exact le_antisymm (not_lt.mp hpos) hb.2.2

lemma max_zero_or_one_add (a b : ℚ) (ha : a = 0 ∨ 1 ≤ a) (_ha0 : 0 ≤ a)
    (hb : b = 0 ∨ 1 ≤ b) (hb0 : 0 ≤ b) : a + b = 0 ∨ 1 ≤ a + b := by
  rcases ha with ha | ha
  · rcases hb with hb | hb
    · exact Or.inl (by rw [ha, hb, add_zero])
    · exact Or.inr (by rw [ha, zero_add]; exact hb)
  · exact Or.inr (le_trans ha (le_add_of_nonneg_right hb0))

lemma if_max_zero_or_one (c : Bool) (w : ℚ) (hw : 1 ≤ w) :
    (if c then w else 0) = 0 ∨ 1 ≤ (if c then w else 0) := by
  cases c <;> simp [hw]

lemma hobbyMax_zero_or_one (userProfile otherProfile : UserProfile) :
    (calculateHobbyMatch userProfile otherProfile).maxScore = 0 ∨
      1 ≤ (calculateHobbyMatch userProfile otherProfile).maxScore := by
  unfold calculateHobbyMatch
  rcases userProfile.hobbies with _ | uh <;> rcases otherProfile.hobbies with _ | oh <;>
    try exact Or.inl rfl
  by_cases hlen : (uh.length == 0 || oh.length == 0) = true
  · simp [hlen]
  · simp only [hlen, if_neg, Bool.not_eq_true]
    norm_num

lemma interestMax_zero_or_one (userProfile otherProfile : UserProfile) :
    (calculateInterestMatch userProfile otherProfile).maxScore = 0 ∨
      1 ≤ (calculateInterestMatch userProfile otherProfile).maxScore := by
  unfold calculateInterestMatch
  rcases userProfile.interests with _ | ui <;> rcases otherProfile.interests with _ | oi <;>
    try exact Or.inl rfl
  by_cases hlen : (ui.length == 0 || oi.length == 0) = true
  · simp [hlen]
  · simp only [hlen, if_neg, Bool.not_eq_true]
    norm_num

/-! ## Claim theorems: the two scorers (C10) -/

/-- C10 counterexample: for two profiles whose only data is the shared
location "Austin", the matches page scorer returns 0 while the
`MatchCompatibility` component returns 100 — the two implementations are
not extensionally equal. -/
theorem scorers_disagree_cex :
    calculateMatchPercentage (some austinProfile) austinProfile ≠
      overallPercentage austinProfile austinProfile := by
  have h1 : calculateMatchPercentage (some austinProfile) austinProfile = 0 := by
    simp +decide [calculateMatchPercentage, mpLifestylePoints, mpLifestyleMax,
      mpCleanlinessPoints, mpCleanlinessMax, mpSmokingPoints, mpSmokingMax,
      mpPetPoints, mpPetMax, mpHobbyPoints, mpHobbyMax, mpInterestPoints,
      mpInterestMax, austinProfile, emptyProfile, tv, jsRound]
    norm_num
  have h2 : overallPercentage austinProfile austinProfile = 100 := by
    simp +decide [overallPercentage, totalScore, totalMaxScore, categories,
      calculateLifestyleMatch, calculateCleanlinessMatch, calculateSmokingMatch,
      calculatePetMatch, calculateHobbyMatch, calculateInterestMatch,
      calculateRoommateQualityMatch, calculateLocationMatch, austinProfile,
      emptyProfile, tv, lcEq, jsLower, jsRound, containsSeq,
      List.filter_cons, decideRatPos, decideRatNotPos]
    norm_num [jsRound]
  rw [h1, h2]
  norm_num

/-- C10 (amended): the two scorers agree on every profile pair for which
the categories absent from the matches page cannot fire (no location data
on both sides, no desired qualities listed by the current user) and the
hobby and interest lists, when both non-null, are both non-empty. -/
theorem scorers_agree (userProfile otherProfile : UserProfile)
    (hloc : (tv userProfile.location && tv otherProfile.location) = false)
    (hq : userProfile.roommateQualities.getD [] = [])
    (hh : userProfile.hobbies.isSome → otherProfile.hobbies.isSome →
      userProfile.hobbies.getD [] ≠ [] ∧ otherProfile.hobbies.getD [] ≠ [])
    (hi : userProfile.interests.isSome → otherProfile.interests.isSome →
      userProfile.interests.getD [] ≠ [] ∧ otherProfile.interests.getD [] ≠ []) :
    calculateMatchPercentage (some userProfile) otherProfile =
      overallPercentage userProfile otherProfile := by
  obtain ⟨hhp, hhm⟩ := mp_hobby_eq userProfile otherProfile hh
  obtain ⟨hip, him⟩ := mp_interest_eq userProfile otherProfile hi
  have hqz := quality_excluded userProfile otherProfile hq
  have hlz := location_excluded userProfile otherProfile hloc
  have hqs : (calculateRoommateQualityMatch userProfile otherProfile).score = 0 := by
    rw [hqz]
  have hqm : (calculateRoommateQualityMatch userProfile otherProfile).maxScore = 0 := by
    rw [hqz]
  have hls : (calculateLocationMatch userProfile otherProfile).score = 0 := by
    rw [hlz]
  have hlm : (calculateLocationMatch userProfile otherProfile).maxScore = 0 := by
    rw [hlz]
  rw [calculateMatchPercentage]
  simp only [mp_lifestyle_points_eq, mp_lifestyle_max_eq, mp_cleanliness_points_eq,
    mp_cleanliness_max_eq, mp_smoking_points_eq, mp_smoking_max_eq, mp_pet_points_eq,
    mp_pet_max_eq, hhp, hhm, hip, him]
  rw [overallPercentage, totalScore_full, totalMaxScore_full, hqs, hqm, hls, hlm]
  simp only [add_zero]
  set S := (calculateLifestyleMatch userProfile otherProfile).score +
    (calculateCleanlinessMatch userProfile otherProfile).score +
    (calculateSmokingMatch userProfile otherProfile).score +
    (calculatePetMatch userProfile otherProfile).score +
    (calculateHobbyMatch userProfile otherProfile).score +
    (calculateInterestMatch userProfile otherProfile).score with hS
  set M := (calculateLifestyleMatch userProfile otherProfile).maxScore +
    (calculateCleanlinessMatch userProfile otherProfile).maxScore +
    (calculateSmokingMatch userProfile otherProfile).maxScore +
    (calculatePetMatch userProfile otherProfile).maxScore +
    (calculateHobbyMatch userProfile otherProfile).maxScore +
    (calculateInterestMatch userProfile otherProfile).maxScore with hM
  have hlb := lifestyle_bounds userProfile otherProfile
  have hcb := cleanliness_bounds userProfile otherProfile
  have hsb := smoking_bounds userProfile otherProfile
  have hpb := pet_bounds userProfile otherProfile
  have hhb := hobby_bounds userProfile otherProfile
  have hib := interest_bounds userProfile otherProfile
  have hS0 : 0 ≤ S := by
    rw [hS]
    have := hlb.1; have := hcb.1; have := hsb.1; have := hpb.1
    have := hhb.1; have := hib.1
    linarith
  have hSM : S ≤ M := by
    rw [hS, hM]
    have := hlb.2.1; have := hcb.2.1; have := hsb.2.1; have := hpb.2.1
    have := hhb.2.1; have := hib.2.1
    linarith
  have hM01 : M = 0 ∨ 1 ≤ M := by
    rw [hM]
    apply max_zero_or_one_add
    apply max_zero_or_one_add
    apply max_zero_or_one_add
    apply max_zero_or_one_add
    apply max_zero_or_one_add
    · exact if_max_zero_or_one _ 20 (by norm_num)
    · exact hlb.2.2
    · exact if_max_zero_or_one _ 15 (by norm_num)
    · exact hcb.2.2
    all_goals first
      | exact if_max_zero_or_one _ 15 (by norm_num)
      | exact if_max_zero_or_one _ 10 (by norm_num)
      | exact hobbyMax_zero_or_one userProfile otherProfile
      | exact interestMax_zero_or_one userProfile otherProfile
      | exact hsb.2.2
      | exact hpb.2.2
      | exact hhb.2.2
      | exact hib.2.2
      | exact add_nonneg hlb.2.2 hcb.2.2
      | exact add_nonneg (add_nonneg hlb.2.2 hcb.2.2) hsb.2.2
      | exact add_nonneg (add_nonneg (add_nonneg hlb.2.2 hcb.2.2) hsb.2.2) hpb.2.2
      | exact add_nonneg (add_nonneg (add_nonneg (add_nonneg hlb.2.2 hcb.2.2) hsb.2.2)
          hpb.2.2) hhb.2.2
  rcases hM01 with hM0 | hM1
  · have hSz : S = 0 := le_antisymm (hM0 ▸ hSM) hS0
    rw [hM0, hSz]
    norm_num [jsRound]
  · have hMpos : 0 < M := lt_of_lt_of_le zero_lt_one hM1
    rw [if_pos hMpos, max_eq_left hM1]

/-- C10 witness: a concrete pair satisfying the amended hypotheses on
which the two scorers agree. -/
theorem scorers_agree_witness :
    calculateMatchPercentage (some perfectProfile) perfectProfile =
      overallPercentage perfectProfile perfectProfile :=
  scorers_agree perfectProfile perfectProfile (by decide) rfl (by decide) (by decide)

/-! ## Helper lemmas: association lists -/

lemma find?_eq_some_unique {α} {p : α → Bool} {l : List α} {x : α} (hx : x ∈ l)
    (hpx : p x = true) (huniq : ∀ y ∈ l, p y = true → y = x) : l.find? p = some x := by
  cases h : l.find? p with
  | none => exact absurd hpx (by simpa using List.find?_eq_none.mp h x hx)
  | some y =>
    have hy := List.find?_some h
    have hmem := List.mem_of_find?_eq_some h
    rw [huniq y hmem hy]

lemma mem_mapSet_self (l : List (Nat × α)) (k : Nat) (v : α) : (k, v) ∈ mapSet l k v := by
  unfold mapSet
  by_cases hany : l.any (fun e => e.1 == k) = true
  · rw [if_pos hany]
    rcases List.any_eq_true.mp hany with ⟨e, he, hek⟩
    exact List.mem_map.mpr ⟨e, he, by simp [hek]⟩
  · rw [if_neg hany]
    exact List.mem_append_right _ (List.mem_singleton.mpr rfl)

lemma mem_of_mem_mapSet {α} {l : List (Nat × α)} {k : Nat} {v : α} {e : Nat × α}
    (he : e ∈ mapSet l k v) : e = (k, v) ∨ (e ∈ l ∧ e.1 ≠ k) := by
  unfold mapSet at he
  by_cases hany : l.any (fun e => e.1 == k) = true
  · rw [if_pos hany] at he
    rcases List.mem_map.mp he with ⟨x, hx, rfl⟩
    by_cases hxk : (x.1 == k) = true
    · left; simp [hxk]
    · right
      refine ⟨by simpa [hxk] using hx, ?_⟩
      simp only [hxk, if_neg, Bool.not_eq_true]
      simpa using hxk
  · rw [if_neg hany] at he
    rcases List.mem_append.mp he with h | h
    · right
      refine ⟨h, fun hk => ?_⟩
      have hb : (e.1 == k) = true := by rw [hk]; exact beq_self_eq_true k
      exact hany (List.any_eq_true.mpr ⟨e, h, hb⟩)
    · left; simpa using h

lemma mapSet_eq_map_of_mem {α} (l : List (Nat × α)) (k : Nat) (v : α)
    (h : ∃ e ∈ l, e.1 = k) :
    mapSet l k v = l.map (fun e => if e.1 == k then (k, v) else e) := by
  unfold mapSet
  rcases h with ⟨e, he, hk⟩
  rw [if_pos (List.any_eq_true.mpr ⟨e, he, by simp [hk]⟩)]

lemma mapSet_eq_append_of_fresh {α} (l : List (Nat × α)) (k : Nat) (v : α)
    (h : ∀ e ∈ l, e.1 ≠ k) : mapSet l k v = l ++ [(k, v)] := by
  unfold mapSet
  rw [if_neg]
  intro hany
  rcases List.any_eq_true.mp hany with ⟨e, he, hek⟩
  exact h e he (by simpa using hek)

/-! ## Helper lemmas: conversation canonicalization -/

lemma normPair_comm (a b : Nat) : normPair a b = normPair b a := by
  unfold normPair
  rcases Nat.lt_trichotomy a b with h | h | h
  · rw [if_pos h, if_neg (Nat.lt_asymm h)]
  · subst h
    rfl
  · rw [if_neg (Nat.lt_asymm h), if_pos h]

lemma normPair_le (a b : Nat) : (normPair a b).1 ≤ (normPair a b).2 := by
  unfold normPair
  by_cases h : a < b
  · simp [h, Nat.le_of_lt h]
  · simp [h, Nat.le_of_not_lt h]

lemma normPair_idem (a b : Nat) :
    normPair (normPair a b).1 (normPair a b).2 = normPair a b := by
  by_cases h : a < b
  · simp [normPair, h]
  · by_cases h2 : b < a
    · simp [normPair, h, h2]
    · have heq : a = b := Nat.le_antisymm (Nat.le_of_not_lt h2) (Nat.le_of_not_lt h)
      subst heq
      simp [normPair]

/-! ## Claim theorem: conversation resolution is commutative (C4) -/

/-- C4: resolving (creating or updating) a conversation is commutative in
its two user-id arguments: both orders return the same conversation and
the same updated store. -/
theorem createOrUpdateConversation_comm (s : MemStorage) (a b dt : Nat) :
    createOrUpdateConversation s a b dt = createOrUpdateConversation s b a dt := by
  unfold createOrUpdateConversation
  rw [normPair_comm]

/-! ## Helper lemmas: conversation store invariant -/

lemma convRel_symm : Symmetric ConvRel := by
  intro x y h
  exact ⟨Ne.symm h.1, fun he => h.2 ⟨he.1.symm, he.2.symm⟩⟩

lemma conv_entry_unique (s : MemStorage) (hInv : ConvInv s) {x y : Nat × Conversation}
    (hx : x ∈ s.conversations) (hy : y ∈ s.conversations) (hk : x.2.id = y.2.id) :
    x = y := by
  by_contra hne
  exact ((hInv.2.forall convRel_symm) hx hy hne).1 hk

lemma conv_pair_unique (s : MemStorage) (hInv : ConvInv s) {x y : Nat × Conversation}
    (hx : x ∈ s.conversations) (hy : y ∈ s.conversations)
    (h1 : x.2.user1Id = y.2.user1Id) (h2 : x.2.user2Id = y.2.user2Id) : x = y := by
  by_contra hne
  exact ((hInv.2.forall convRel_symm) hx hy hne).2 ⟨h1, h2⟩

lemma getConversationById_of_mem (s : MemStorage) (hInv : ConvInv s) (k : Nat)
    (c : Conversation) (hk : c.id = k) (hm : (k, c) ∈ s.conversations) :
    getConversationById s k = some c := by
  unfold getConversationById mapGet
  have hp : (fun e : Nat × Conversation => e.1 == k) (k, c) = true := beq_self_eq_true k
  rw [find?_eq_some_unique hm hp ?_]
  · rfl
  · intro y hy hpy
    have hy1 : y.1 = k := by simpa using hpy
    apply conv_entry_unique s hInv hy hm
    rw [← (hInv.1 y hy).1, hy1]
    exact hk.symm

lemma getConversation_of_mem (s : MemStorage) (hInv : ConvInv s) (c : Conversation)
    (hm : (c.id, c) ∈ s.conversations) (a b : Nat)
    (h1 : c.user1Id = (normPair a b).1) (h2 : c.user2Id = (normPair a b).2) :
    getConversation s a b = some c := by
  simp only [getConversation]
  have hp : (fun e : Nat × Conversation =>
      e.2.user1Id == (normPair a b).1 && e.2.user2Id == (normPair a b).2) (c.id, c) = true := by
    simp [h1, h2]
  rw [find?_eq_some_unique hm hp ?_]
  · rfl
  · intro y hy hpy
    simp only [Bool.and_eq_true, beq_iff_eq] at hpy
    exact conv_pair_unique s hInv hy hm (by rw [hpy.1, h1]) (by rw [hpy.2, h2])

lemma getConversation_norm (s : MemStorage) (a b : Nat) :
    getConversation s (normPair a b).1 (normPair a b).2 = getConversation s a b := by
  unfold getConversation
  rw [normPair_idem]

lemma getConversation_some_facts (s : MemStorage) (hInv : ConvInv s) (a b : Nat)
    (c : Conversation) (h : getConversation s a b = some c) :
    (c.id, c) ∈ s.conversations ∧ c.user1Id = (normPair a b).1 ∧
      c.user2Id = (normPair a b).2 := by
  simp only [getConversation] at h
  rcases Option.map_eq_some'.mp h with ⟨e, hfind, he2⟩
  have hmem := List.mem_of_find?_eq_some hfind
  have hp := List.find?_some hfind
  simp only [Bool.and_eq_true, beq_iff_eq] at hp
  have hkey := (hInv.1 e hmem).1
  have he : e = (c.id, c) := by
    rw [Prod.ext_iff]
    exact ⟨by rw [hkey, he2], he2⟩
  rw [he] at hmem
  rw [he2] at hp
  exact ⟨hmem, hp.1, hp.2⟩

lemma getConversation_none_facts (s : MemStorage) (a b : Nat)
    (h : getConversation s a b = none) :
    ∀ e ∈ s.conversations,
      ¬(e.2.user1Id = (normPair a b).1 ∧ e.2.user2Id = (normPair a b).2) := by
  simp only [getConversation] at h
  rw [Option.map_eq_none'] at h
  have := List.find?_eq_none.mp h
  intro e he hpair
  have hx := this e he
  simp only [Bool.and_eq_true, beq_iff_eq, not_and] at hx
  exact hx hpair.1 hpair.2

lemma convInv_mapSet_update (s : MemStorage) (hInv : ConvInv s) (c c' : Conversation)
    (hm : (c.id, c) ∈ s.conversations) (hid : c'.id = c.id)
    (hu1 : c'.user1Id = c.user1Id) (hu2 : c'.user2Id = c.user2Id)
    (cnt' : Nat) (hcnt : s.currentConversationId ≤ cnt') :
    (∀ e ∈ mapSet s.conversations c.id c',
      e.1 = e.2.id ∧ e.2.user1Id ≤ e.2.user2Id ∧ e.2.id < cnt') ∧
    (mapSet s.conversations c.id c').Pairwise ConvRel := by
  have hcprop := hInv.1 (c.id, c) hm
  constructor
  · intro e he
    rcases mem_of_mem_mapSet he with rfl | ⟨hel, _⟩
    · exact ⟨hid.symm, by rw [hu1, hu2]; exact hcprop.2.1,
        by rw [hid]; exact lt_of_lt_of_le hcprop.2.2 hcnt⟩
    · have := hInv.1 e hel
      exact ⟨this.1, this.2.1, lt_of_lt_of_le this.2.2 hcnt⟩
  · rw [mapSet_eq_map_of_mem _ _ _ ⟨(c.id, c), hm, rfl⟩, List.pairwise_map]
    apply hInv.2.imp_of_mem
    intro a b ha hb hr
    have hproj : ∀ x ∈ s.conversations,
        (if x.1 == c.id then (c.id, c') else x).2.id = x.2.id ∧
        (if x.1 == c.id then (c.id, c') else x).2.user1Id = x.2.user1Id ∧
        (if x.1 == c.id then (c.id, c') else x).2.user2Id = x.2.user2Id := by
      intro x hx
      by_cases hxk : (x.1 == c.id) = true
      · have hxc : x = (c.id, c) := by
          apply conv_entry_unique s hInv hx hm
          have hx1 : x.1 = c.id := by simpa using hxk
          rw [← (hInv.1 x hx).1, hx1]

        rw [hxc]
        simp [hid, hu1, hu2]
      · simp [hxk]
    obtain ⟨pa1, pa2, pa3⟩ := hproj a ha
    obtain ⟨pb1, pb2, pb3⟩ := hproj b hb
    unfold ConvRel at hr ⊢
    rw [pa1, pa2, pa3, pb1, pb2, pb3]
    exact hr

lemma convInv_append (s : MemStorage) (hInv : ConvInv s) (c : Conversation)
    (hfresh : ∀ e ∈ s.conversations,
      ¬(e.2.user1Id = c.user1Id ∧ e.2.user2Id = c.user2Id))
    (hid : c.id = s.currentConversationId) (hcan : c.user1Id ≤ c.user2Id) :
    (∀ e ∈ s.conversations ++ [(c.id, c)],
      e.1 = e.2.id ∧ e.2.user1Id ≤ e.2.user2Id ∧ e.2.id < s.currentConversationId + 1) ∧
    (s.conversations ++ [(c.id, c)]).Pairwise ConvRel := by
  constructor
  · intro e he
    rcases List.mem_append.mp he with h | h
    · have := hInv.1 e h
      exact ⟨this.1, this.2.1, Nat.lt_succ_of_lt this.2.2⟩
    · have he' : e = (c.id, c) := by simpa using h
      rw [he']
      exact ⟨rfl, hcan, by rw [hid]; exact Nat.lt_succ_self _⟩
  · rw [List.pairwise_append]
    refine ⟨hInv.2, List.pairwise_singleton _ _, ?_⟩
    intro a ha b hb
    have hb' : b = (c.id, c) := by simpa using hb
    rw [hb']
    constructor
    · have hlt := (hInv.1 a ha).2.2
      rw [hid] at *
      exact Nat.ne_of_lt hlt
    · exact hfresh a ha

lemma convInv_congr (s t : MemStorage) (hconv : t.conversations = s.conversations)
    (hcnt : s.currentConversationId ≤ t.currentConversationId) (hC : ConvInv s) :
    ConvInv t := by
  constructor
  · intro e he
    rw [hconv] at he
    have := hC.1 e he
    exact ⟨this.1, this.2.1, lt_of_lt_of_le this.2.2 hcnt⟩
  · rw [hconv]
    exact hC.2

lemma msgInv_congr (s t : MemStorage) (hmsg : t.messages = s.messages)
    (hcnt : s.currentMessageId ≤ t.currentMessageId) (hnow : s.now ≤ t.now)
    (hM : MsgInv s) : MsgInv t := by
  constructor
  · intro e he
    rw [hmsg] at he
    have := hM.1 e he
    exact ⟨this.1, lt_of_lt_of_le this.2.1 hcnt, le_trans this.2.2 hnow⟩
  · rw [hmsg]
    exact hM.2

lemma storeInv_congr (s t : MemStorage) (hconv : t.conversations = s.conversations)
    (hmsg : t.messages = s.messages)
    (hccnt : t.currentConversationId = s.currentConversationId)
    (hmcnt : t.currentMessageId = s.currentMessageId) (hnow : t.now = s.now)
    (h : StoreInv s) : StoreInv t :=
  ⟨convInv_congr s t hconv (le_of_eq hccnt.symm) h.1,
   msgInv_congr s t hmsg (le_of_eq hmcnt.symm) (le_of_eq hnow.symm) h.2⟩

/-- Reduction of `createOrUpdateConversation` when a conversation for the
pair already exists. -/
lemma createOrUpdate_eq_some (s : MemStorage) (a b dt : Nat) (c : Conversation)
    (h : getConversation s a b = some c) :
    createOrUpdateConversation s a b dt =
      ({ c with lastMessageAt := s.now + dt },
       { s with
         now := s.now + dt
         conversations :=
           mapSet s.conversations c.id { c with lastMessageAt := s.now + dt } }) := by
  simp only [createOrUpdateConversation]
  rw [getConversation_norm, h]
  rfl

/-- Reduction of `createOrUpdateConversation` when no conversation for
the pair exists yet. -/
lemma createOrUpdate_eq_none (s : MemStorage) (a b dt : Nat)
    (h : getConversation s a b = none) :
    createOrUpdateConversation s a b dt =
      ({ id := s.currentConversationId, user1Id := (normPair a b).1,
         user2Id := (normPair a b).2, lastMessageAt := s.now + dt, unreadCount := 0 },
       { s with
         currentConversationId := s.currentConversationId + 1
         now := s.now + dt
         conversations := mapSet s.conversations s.currentConversationId
           { id := s.currentConversationId, user1Id := (normPair a b).1,
             user2Id := (normPair a b).2, lastMessageAt := s.now + dt, unreadCount := 0 } }) := by
  simp only [createOrUpdateConversation]
  rw [getConversation_norm, h]
  rfl

/-- Everything the later proofs need about one `createOrUpdateConversation`
step. -/
lemma createOrUpdate_spec (s : MemStorage) (a b dt : Nat) (hInv : ConvInv s) :
    ConvInv (createOrUpdateConversation s a b dt).2 ∧
    ((createOrUpdateConversation s a b dt).1.id, (createOrUpdateConversation s a b dt).1) ∈
      (createOrUpdateConversation s a b dt).2.conversations ∧
    (createOrUpdateConversation s a b dt).1.user1Id = (normPair a b).1 ∧
    (createOrUpdateConversation s a b dt).1.user2Id = (normPair a b).2 ∧
    (createOrUpdateConversation s a b dt).1.unreadCount = unreadOf (getConversation s a b) ∧
    (createOrUpdateConversation s a b dt).2.messages = s.messages ∧
    (createOrUpdateConversation s a b dt).2.currentMessageId = s.currentMessageId ∧
    (createOrUpdateConversation s a b dt).2.now = s.now + dt := by
  cases hconv : getConversation s a b with
  | some c =>
    obtain ⟨hm, h1, h2⟩ := getConversation_some_facts s hInv a b c hconv
    rw [createOrUpdate_eq_some s a b dt c hconv]
    have hupd := convInv_mapSet_update s hInv c { c with lastMessageAt := s.now + dt } hm
      rfl rfl rfl s.currentConversationId (le_refl _)
    exact ⟨⟨hupd.1, hupd.2⟩, mem_mapSet_self _ _ _, h1, h2, rfl, rfl, rfl, rfl⟩
  | none =>
    rw [createOrUpdate_eq_none s a b dt hconv]
    have hfreshkey : ∀ e ∈ s.conversations, e.1 ≠ s.currentConversationId := by
      intro e he
      have := hInv.1 e he
      rw [this.1]
      exact Nat.ne_of_lt this.2.2
    have happ := convInv_append s hInv
      { id := s.currentConversationId, user1Id := (normPair a b).1,
        user2Id := (normPair a b).2, lastMessageAt := s.now + dt, unreadCount := 0 }
      (getConversation_none_facts s a b hconv) rfl (normPair_le a b)
    have hset := mapSet_eq_append_of_fresh s.conversations s.currentConversationId
      { id := s.currentConversationId, user1Id := (normPair a b).1,
        user2Id := (normPair a b).2, lastMessageAt := s.now + dt, unreadCount := 0 } hfreshkey
    constructor
    · constructor
      · intro e he
        rw [hset] at he
        exact happ.1 e he
      · rw [hset]
        exact happ.2
    · refine ⟨?_, rfl, rfl, rfl, rfl, rfl, rfl⟩
      rw [hset]
      exact List.mem_append_right _ (List.mem_singleton.mpr rfl)

/-- Everything the later proofs need about one `sendMessage` step. -/
lemma sendMessage_spec (s : MemStorage) (m : InsertMessage) (dt1 dt2 : Nat)
    (hInv : StoreInv s) :
    StoreInv (sendMessage s m dt1 dt2).2 ∧
    (sendMessage s m dt1 dt2).2.messages =
      s.messages ++ [((sendMessage s m dt1 dt2).1.id, (sendMessage s m dt1 dt2).1)] ∧
    (sendMessage s m dt1 dt2).1.read = m.read.getD false ∧
    (sendMessage s m dt1 dt2).1.senderId = m.senderId ∧
    (sendMessage s m dt1 dt2).1.receiverId = m.receiverId ∧
    (sendMessage s m dt1 dt2).1.content = m.content ∧
    (∃ c', getConversation (sendMessage s m dt1 dt2).2 m.senderId m.receiverId = some c' ∧
      c'.unreadCount = unreadOf (getConversation s m.senderId m.receiverId) + 1) := by
  obtain ⟨hC1, hmem, hu1, hu2, hunread, hmsgs, hcnt, hnow⟩ :=
    createOrUpdate_spec s m.senderId m.receiverId dt1 hInv.1
  have hM1 : MsgInv (createOrUpdateConversation s m.senderId m.receiverId dt1).2 :=
    msgInv_congr s _ hmsgs (le_of_eq hcnt.symm)
      (by rw [hnow]; exact Nat.le_add_right _ _) hInv.2
  dsimp only [sendMessage, tick]
  generalize hcs : createOrUpdateConversation s m.senderId m.receiverId dt1 = cs at *
  obtain ⟨conv, s1⟩ := cs
  dsimp only [tick] at hC1 hmem hu1 hu2 hunread hmsgs hcnt hnow hM1 ⊢
  have hfresh : ∀ e ∈ s1.messages, e.1 ≠ s1.currentMessageId := by
    intro e he
    have := hM1.1 e he
    rw [this.1]
    exact Nat.ne_of_lt this.2.1
  have hset := mapSet_eq_append_of_fresh s1.messages s1.currentMessageId
    { id := s1.currentMessageId, senderId := m.senderId, receiverId := m.receiverId,
      content := m.content, read := m.read.getD false, createdAt := s1.now + dt2 } hfresh
  have hCupd := convInv_mapSet_update s1 hC1 conv
    { conv with
      lastMessageAt := s1.now + dt2
      unreadCount := conv.unreadCount + 1 } hmem
    rfl rfl rfl s1.currentConversationId (le_refl _)
  have hCfin : ConvInv { s1 with
      currentMessageId := s1.currentMessageId + 1
      now := s1.now + dt2
      messages := mapSet s1.messages s1.currentMessageId
        { id := s1.currentMessageId, senderId := m.senderId, receiverId := m.receiverId,
          content := m.content, read := m.read.getD false, createdAt := s1.now + dt2 }
      conversations := mapSet s1.conversations conv.id
        { conv with
          lastMessageAt := s1.now + dt2
          unreadCount := conv.unreadCount + 1 } } :=
    ⟨hCupd.1, hCupd.2⟩
  refine ⟨⟨hCfin, ?_⟩, ?_, rfl, rfl, rfl, rfl, ?_⟩
  · constructor
    · intro e he
      rw [hset] at he
      rcases List.mem_append.mp he with h | h
      · have := hM1.1 e h
        exact ⟨this.1, Nat.lt_succ_of_lt this.2.1,
          le_trans this.2.2 (Nat.le_add_right _ _)⟩
      · have he' : e = (s1.currentMessageId,
            { id := s1.currentMessageId, senderId := m.senderId, receiverId := m.receiverId,
              content := m.content, read := m.read.getD false,
              createdAt := s1.now + dt2 }) := by
          simpa using h
        rw [he']
        exact ⟨rfl, Nat.lt_succ_self _, le_refl _⟩
    · rw [hset, List.pairwise_append]
      refine ⟨hM1.2, List.pairwise_singleton _ _, ?_⟩
      intro a ha b hb
      have hb' : b = (s1.currentMessageId,
          { id := s1.currentMessageId, senderId := m.senderId, receiverId := m.receiverId,
            content := m.content, read := m.read.getD false,
            createdAt := s1.now + dt2 }) := by
        simpa using hb
      rw [hb']
      exact le_trans (hM1.1 a ha).2.2 (Nat.le_add_right _ _)
  · rw [hset, hmsgs]
  · refine ⟨{ conv with
      lastMessageAt := s1.now + dt2
      unreadCount := conv.unreadCount + 1 }, ?_, ?_⟩
    · exact getConversation_of_mem _ hCfin _ (mem_mapSet_self _ _ _) m.senderId m.receiverId
        hu1 hu2
    · rw [← hunread]

/-- Reduction of `markMessagesAsRead` when the conversation id is
unknown. -/
lemma markRead_eq_none (s : MemStorage) (cid uid : Nat)
    (h : getConversationById s cid = none) : markMessagesAsRead s cid uid = s := by
  unfold markMessagesAsRead
  rw [h]

/-- Reduction of `markMessagesAsRead` when the conversation exists. -/
lemma markRead_eq_some (s : MemStorage) (cid uid : Nat) (c : Conversation)
    (h : getConversationById s cid = some c) :
    markMessagesAsRead s cid uid =
      { s with
        messages := s.messages.map (fun e =>
          if e.2.receiverId == uid && msgInConv e.2 c && !e.2.read then
            (e.1, { e.2 with read := true })
          else e)
        conversations := mapSet s.conversations cid { c with unreadCount := 0 } } := by
  unfold markMessagesAsRead
  rw [h]

/-- Everything the later proofs need about one `markMessagesAsRead`
step. -/
lemma markRead_spec (s : MemStorage) (cid uid : Nat) (hInv : StoreInv s) :
    StoreInv (markMessagesAsRead s cid uid) ∧
    ∀ c, getConversationById s cid = some c →
      getConversationById (markMessagesAsRead s cid uid) cid =
        some { c with unreadCount := 0 } := by
  cases h : getConversationById s cid with
  | none =>
    rw [markRead_eq_none s cid uid h]
    exact ⟨hInv, fun c hc => absurd hc (by simp)⟩
  | some conversation =>
    have hfacts : conversation.id = cid ∧ (cid, conversation) ∈ s.conversations := by
      unfold getConversationById mapGet at h
      rcases Option.map_eq_some'.mp h with ⟨e, hfind, he2⟩
      have hmemE := List.mem_of_find?_eq_some hfind
      have he1 : e.1 = cid := by simpa using List.find?_some hfind
      have hid := (hInv.1.1 e hmemE).1
      constructor
      · rw [← he2, ← hid, he1]
      · have he : e = (cid, conversation) := by
          rw [Prod.ext_iff]
          exact ⟨he1, he2⟩
        rw [← he]
        exact hmemE
    obtain ⟨hcid, hmem⟩ := hfacts
    have hmem' : (conversation.id, conversation) ∈ s.conversations := by
      rw [hcid]
      exact hmem
    rw [markRead_eq_some s cid uid conversation h]
    have hCupd := convInv_mapSet_update s hInv.1 conversation
      { conversation with unreadCount := 0 } hmem' rfl rfl rfl
      s.currentConversationId (le_refl _)
    have hCfin : ConvInv { s with
        messages := s.messages.map (fun e =>
          if e.2.receiverId == uid && msgInConv e.2 conversation && !e.2.read then
            (e.1, { e.2 with read := true })
          else e)
        conversations := mapSet s.conversations cid { conversation with unreadCount := 0 } } := by
      constructor
      · intro e he
        rw [← hcid] at he
        exact hCupd.1 e he
      · rw [← hcid]
        exact hCupd.2
    refine ⟨⟨hCfin, ?_, ?_⟩, ?_⟩
    · intro e he
      rcases List.mem_map.mp he with ⟨x, hx, rfl⟩
      have hxP := hInv.2.1 x hx
      by_cases hcond : (x.2.receiverId == uid && msgInConv x.2 conversation && !x.2.read) = true
      · rw [if_pos hcond]
        exact ⟨hxP.1, hxP.2.1, hxP.2.2⟩
      · rw [if_neg hcond]
        exact hxP
    · rw [List.pairwise_map]
      apply hInv.2.2.imp_of_mem
      intro a b ha hb hr
      by_cases hca : (a.2.receiverId == uid && msgInConv a.2 conversation && !a.2.read) = true <;>
        by_cases hcb : (b.2.receiverId == uid && msgInConv b.2 conversation && !b.2.read) = true <;>
          simp only [hca, hcb, if_pos, if_neg, Bool.not_eq_true] <;> exact hr
    · intro c hc
      have hcc : c = conversation := (Option.some_inj.mp hc).symm
      subst hcc
      exact getConversationById_of_mem _ hCfin cid { c with unreadCount := 0 } hcid
        (mem_mapSet_self _ _ _)

/-- Every reachable store state satisfies the conversation and message
invariants. -/
lemma reachable_inv (s : MemStorage) (h : Reachable s) : StoreInv s := by
  induction h with
  | init =>
    constructor
    · exact ⟨fun e he => absurd he (List.not_mem_nil e), List.Pairwise.nil⟩
    · exact ⟨fun e he => absurd he (List.not_mem_nil e), List.Pairwise.nil⟩
  | user iu hr ih => exact storeInv_congr _ _ rfl rfl rfl rfl rfl ih
  | profileCreate uid ip hr ih => exact storeInv_congr _ _ rfl rfl rfl rfl rfl ih
  | @profileUpdate s0 uid u hr ih =>
    simp only [updateUserProfile]
    split
    · exact storeInv_congr _ _ rfl rfl rfl rfl rfl ih
    · split
      · exact storeInv_congr _ _ rfl rfl rfl rfl rfl ih
      · exact storeInv_congr _ _ rfl rfl rfl rfl rfl ih
  | conv a b dt hr ih =>
    have hs := createOrUpdate_spec _ a b dt ih.1
    exact ⟨hs.1, msgInv_congr _ _ hs.2.2.2.2.2.1 (le_of_eq hs.2.2.2.2.2.2.1.symm)
      (by rw [hs.2.2.2.2.2.2.2]; exact Nat.le_add_right _ _) ih.2⟩
  | send m dt1 dt2 hr ih => exact (sendMessage_spec _ m dt1 dt2 ih).1
  | markRead cid uid hr ih => exact (markRead_spec _ cid uid ih).1

lemma normPair_of_le (a b : Nat) (h : a ≤ b) : normPair a b = (a, b) := by
  unfold normPair
  by_cases hlt : a < b
  · rw [if_pos hlt]
  · have heq : a = b := Nat.le_antisymm h (Nat.le_of_not_lt hlt)
    subst heq
    rw [if_neg hlt]

/-! ## Claim theorems: store invariant (C5) and unread counter (C6) -/

/-- C5: in every reachable store state, every stored conversation holds
its user pair in canonical order (the smaller identifier in `user1Id`),
and there is at most one conversation per unordered pair of user ids. -/
theorem conversation_store_invariant (s : MemStorage) (hs : Reachable s) :
    (∀ e ∈ s.conversations, e.2.user1Id ≤ e.2.user2Id) ∧
    ∀ e1 ∈ s.conversations, ∀ e2 ∈ s.conversations,
      normPair e1.2.user1Id e1.2.user2Id = normPair e2.2.user1Id e2.2.user2Id →
        e1 = e2 := by
  have hInv := (reachable_inv s hs).1
  constructor
  · intro e he
    exact (hInv.1 e he).2.1
  · intro e1 h1 e2 h2 hp
    have c1 := (hInv.1 e1 h1).2.1
    have c2 := (hInv.1 e2 h2).2.1
    rw [normPair_of_le _ _ c1, normPair_of_le _ _ c2, Prod.ext_iff] at hp
    exact conv_pair_unique s hInv h1 h2 hp.1 hp.2

/-- C5 witness: the invariant holds in the concrete reachable state
obtained by sending one message. -/
theorem conversation_store_invariant_witness :
    (∀ e ∈ sSend1.conversations, e.2.user1Id ≤ e.2.user2Id) ∧
    ∀ e1 ∈ sSend1.conversations, ∀ e2 ∈ sSend1.conversations,
      normPair e1.2.user1Id e1.2.user2Id = normPair e2.2.user1Id e2.2.user2Id →
        e1 = e2 :=
  conversation_store_invariant sSend1 (Reachable.send msg35 1 1 Reachable.init)

/-- C6: each `sendMessage` call yields a conversation for the
sender/receiver pair whose unread counter is exactly one more than before
(0 before, when the conversation is newly created), and a subsequent
`markMessagesAsRead` on that conversation resets the counter to exactly
0. -/
theorem sendMessage_unread_increment (s : MemStorage) (hs : Reachable s)
    (m : InsertMessage) (dt1 dt2 : Nat) :
    ∃ c', getConversation (sendMessage s m dt1 dt2).2 m.senderId m.receiverId = some c' ∧
      c'.unreadCount = unreadOf (getConversation s m.senderId m.receiverId) + 1 ∧
      ∀ uid, ∃ c'',
        getConversationById (markMessagesAsRead (sendMessage s m dt1 dt2).2 c'.id uid)
          c'.id = some c'' ∧ c''.unreadCount = 0 := by
  have hInv := reachable_inv s hs
  obtain ⟨hS, _, _, _, _, _, c', hget, hunread⟩ := sendMessage_spec s m dt1 dt2 hInv
  refine ⟨c', hget, hunread, ?_⟩
  intro uid
  obtain ⟨hmem', _, _⟩ := getConversation_some_facts _ hS.1 _ _ _ hget
  have hbyid := getConversationById_of_mem _ hS.1 c'.id c' rfl hmem'
  obtain ⟨_, hmark⟩ := markRead_spec (sendMessage s m dt1 dt2).2 c'.id uid hS
  exact ⟨{ c' with unreadCount := 0 }, hmark c' hbyid, rfl⟩

/-- C6 witness: concrete send into the empty store. -/
theorem sendMessage_unread_increment_witness :
    ∃ c', getConversation (sendMessage initStorage msg35 1 1).2 msg35.senderId
        msg35.receiverId = some c' ∧
      c'.unreadCount =
        unreadOf (getConversation initStorage msg35.senderId msg35.receiverId) + 1 ∧
      ∀ uid, ∃ c'',
        getConversationById
          (markMessagesAsRead (sendMessage initStorage msg35 1 1).2 c'.id uid)
          c'.id = some c'' ∧ c''.unreadCount = 0 :=
  sendMessage_unread_increment initStorage Reachable.init msg35 1 1

/-! ## Claim theorem: message ordering (C7) -/

lemma sortByTime_sorted_id : ∀ (l : List Message),
    l.Pairwise (fun a b => a.createdAt ≤ b.createdAt) → sortByTime l = l := by
  intro l
  induction l with
  | nil => intro _; rfl
  | cons x xs ih =>
    intro h
    obtain ⟨hx, htail⟩ := List.pairwise_cons.mp h
    rw [sortByTime, ih htail]
    cases xs with
    | nil => rfl
    | cons y ys =>
      rw [insertByTime, if_pos (hx y (List.mem_cons_self y ys))]

/-- C7 counterexample: the source's clock has millisecond resolution, so
two sends can observe the same instant (`sTie` draws every timestamp in
the same millisecond).  The two stored messages then carry equal
`createdAt` and the list returned by `getMessages` is not strictly
ordered — the program guarantees only nondecreasing order. -/
theorem getMessages_equal_timestamps_cex :
    ¬ (getMessages sTie 1).Pairwise (fun a b => a.createdAt < b.createdAt) := by
  decide

/-- C7 (amended): in every reachable store state, the message list
returned by `getMessages` is ordered by creation time nondecreasing: each
message's `createdAt` is no later than the next one's (strictness can
fail when two messages are created in the same millisecond). -/
theorem getMessages_sorted_nondecreasing (s : MemStorage) (hs : Reachable s)
    (conversationId : Nat) :
    (getMessages s conversationId).Pairwise (fun a b => a.createdAt ≤ b.createdAt) := by
  have hM := (reachable_inv s hs).2
  unfold getMessages
  cases h : getConversationById s conversationId with
  | none => exact List.Pairwise.nil
  | some conversation =>
    dsimp only
    have hvals : (mapValues s.messages).Pairwise
        (fun a b => a.createdAt ≤ b.createdAt) := by
      unfold mapValues
      rw [List.pairwise_map]
      exact hM.2
    have hfilt := hvals.filter (fun message => msgInConv message conversation)
    rw [sortByTime_sorted_id _ hfilt]
    exact hfilt

/-- C7 witness: concrete state after two sends between users 3 and 5. -/
theorem getMessages_sorted_nondecreasing_witness :
    (getMessages sSend2 1).Pairwise (fun a b => a.createdAt ≤ b.createdAt) :=
  getMessages_sorted_nondecreasing sSend2
    (Reachable.send msg53 1 1 (Reachable.send msg35 1 1 Reachable.init)) 1

/-! ## Claim theorems: POST /api/messages (C8) -/

/-- C8 counterexample: the handler forwards a client-supplied `read`
field, so with `read: true` in the body the appended message has read
flag `true`, contradicting "a new message with read flag false is
appended". -/
theorem postMessages_read_true_cex :
    ((postMessagesRoute sBob 2 { receiverId := 1, content := "hi", read := some true }
      1 1).1.map Message.read) = some true ∧
    ((postMessagesRoute sBob 2 { receiverId := 1, content := "hi", read := some true }
      1 1).2.messages.map (fun e => e.2.read)) = [true] := by
  constructor <;> rfl

/-- C8 (amended): the handler fails (with the 404 "Recipient not found"
reply, modelled as `none`) exactly when the receiver id is absent from
the user store; in that case the store is entirely unchanged; when the
receiver exists, exactly one new message is appended whose read flag is
the request's `read` value defaulting to false, with the session user as
sender. -/
theorem postMessages_recipient_check (s : MemStorage) (hs : Reachable s)
    (senderId : Nat) (body : MessageBody) (dt1 dt2 : Nat) :
    ((postMessagesRoute s senderId body dt1 dt2).1 = none ↔
      getUser s body.receiverId = none) ∧
    (getUser s body.receiverId = none →
      (postMessagesRoute s senderId body dt1 dt2).2 = s) ∧
    (getUser s body.receiverId ≠ none →
      ∃ msg, (postMessagesRoute s senderId body dt1 dt2).1 = some msg ∧
        (postMessagesRoute s senderId body dt1 dt2).2.messages =
          s.messages ++ [(msg.id, msg)] ∧
        msg.read = body.read.getD false ∧ msg.senderId = senderId ∧
        msg.receiverId = body.receiverId ∧ msg.content = body.content) := by
  cases h : getUser s body.receiverId with
  | none =>
    unfold postMessagesRoute
    rw [h]
    exact ⟨⟨fun _ => rfl, fun _ => rfl⟩, fun _ => rfl, fun hne => absurd rfl hne⟩
  | some u =>
    unfold postMessagesRoute
    rw [h]
    obtain ⟨_, hmsgs, hread, hsend, hrecv, hcont, _⟩ :=
      sendMessage_spec s
        { senderId
          receiverId := body.receiverId
          content := body.content
          read := body.read } dt1 dt2 (reachable_inv s hs)
    refine ⟨⟨fun hc => Option.noConfusion hc, fun hc => Option.noConfusion hc⟩,
      fun hc => Option.noConfusion hc, ?_⟩
    intro _
    exact ⟨_, rfl, hmsgs, hread, hsend, hrecv, hcont⟩

/-- C8 witness: concrete store with one user; sending to them succeeds
and appends one message with read flag false. -/
theorem postMessages_recipient_check_witness :
    ((postMessagesRoute sBob 2 { receiverId := 1, content := "hi", read := none }
        1 1).1 = none ↔ getUser sBob 1 = none) ∧
    (getUser sBob 1 = none →
      (postMessagesRoute sBob 2 { receiverId := 1, content := "hi", read := none }
        1 1).2 = sBob) ∧
    (getUser sBob 1 ≠ none →
      ∃ msg, (postMessagesRoute sBob 2
          { receiverId := 1, content := "hi", read := none } 1 1).1 = some msg ∧
        (postMessagesRoute sBob 2
          { receiverId := 1, content := "hi", read := none } 1 1).2.messages =
          sBob.messages ++ [(msg.id, msg)] ∧
        msg.read = (none : Option Bool).getD false ∧ msg.senderId = 2 ∧
        msg.receiverId = 1 ∧ msg.content = "hi") :=
  postMessages_recipient_check sBob (Reachable.user bobUser Reachable.init) 2
    { receiverId := 1, content := "hi", read := none } 1 1

/-! ## Claim theorems: profileComplete (C9) -/

/-- C9 counterexample: creating a profile whose insert payload has
hobbies and interests but no `fullName` key at all produces
`profileComplete = true` with `fullName = null` — the flag can be true
although the full name is not set, because the code checks
`fullName !== null`, which `undefined` passes. -/
theorem profileComplete_missing_name_cex :
    (createUserProfile initStorage 1 ipNoName).1.profileComplete = true ∧
    (createUserProfile initStorage 1 ipNoName).1.fullName = none := by
  constructor <;> rfl

/-- C9 (amended): on creation, `profileComplete` is true iff the insert
payload's full name is not the explicit null (an absent name passes!) and
both stored lists are non-empty; on update of an existing profile it is
true iff the update's full name is truthy (a non-empty string) or the
existing full name is truthy, and both stored lists are non-empty. -/
theorem profileComplete_characterization (s : MemStorage) (uid : Nat)
    (ip : InsertUserProfile) :
    ((createUserProfile s uid ip).1.profileComplete = true ↔
      (ip.fullName ≠ some none ∧
        (createUserProfile s uid ip).1.interests ≠ some [] ∧
        (createUserProfile s uid ip).1.hobbies ≠ some [])) ∧
    (∀ pid existingProfile, mapGet s.userIdToProfileIdMap uid = some pid →
      mapGet s.userProfiles pid = some existingProfile →
      ((updateUserProfile s uid ip).1.profileComplete = true ↔
        ((tvOO ip.fullName = true ∨ tv existingProfile.fullName = true) ∧
          (updateUserProfile s uid ip).1.interests ≠ some [] ∧
          (updateUserProfile s uid ip).1.hobbies ≠ some []))) := by
  constructor
  · dsimp only [createUserProfile]
    simp [Bool.and_eq_true, bne_iff_ne, decide_eq_true_eq, List.length_pos, and_assoc]
  · intro pid existingProfile h1 h2
    simp only [updateUserProfile]
    rw [h1]
    dsimp only
    rw [h2]
    dsimp only
    simp [Bool.and_eq_true, Bool.or_eq_true, decide_eq_true_eq, List.length_pos, and_assoc]

/-- C9 witness: the characterization applied at a concrete input. -/
theorem profileComplete_characterization_witness :
    ((createUserProfile initStorage 1 ipNoName).1.profileComplete = true ↔
      (ipNoName.fullName ≠ some none ∧
        (createUserProfile initStorage 1 ipNoName).1.interests ≠ some [] ∧
        (createUserProfile initStorage 1 ipNoName).1.hobbies ≠ some [])) ∧
    (∀ pid existingProfile, mapGet initStorage.userIdToProfileIdMap 1 = some pid →
      mapGet initStorage.userProfiles pid = some existingProfile →
      ((updateUserProfile initStorage 1 ipNoName).1.profileComplete = true ↔
        ((tvOO ipNoName.fullName = true ∨ tv existingProfile.fullName = true) ∧
          (updateUserProfile initStorage 1 ipNoName).1.interests ≠ some [] ∧
          (updateUserProfile initStorage 1 ipNoName).1.hobbies ≠ some []))) :=
  profileComplete_characterization initStorage 1 ipNoName

/-- C3 witness: the range theorem applied at a concrete profile pair. -/
theorem overallPercentage_range_witness :
    0 ≤ overallPercentage emptyProfile emptyProfile ∧
    overallPercentage emptyProfile emptyProfile ≤ 100 ∧
    (totalMaxScore emptyProfile emptyProfile = 0 →
      overallPercentage emptyProfile emptyProfile = 0) :=
  overallPercentage_range emptyProfile emptyProfile

end Roomeet
